import Mathlib

/-!
# Verification of `ts_schedulerConfig`

Shallow embedding of the `lsst.ts.schedulerConfig` package:

* the per-topic, timeout-bounded DDS acquisition loop and the eleven-step
  `configure()` sequence of `conf_comm.py` (`ConfigurationCommunicator`);
* the field-copy normalization of the camera and slew configuration sections;
* the proposal wire-record encoders `General.set_topic` / `Sequence.set_topic`
  and the field-ID computations `General.proposal_fields` /
  `Sequence.proposal_fields` of `proposal/general.py` and
  `proposal/sequence.py`.

Modelling conventions: Python strings are their character sequences
(`Str := List Char`), numeric sample/config fields are rationals (`ℚ`) or
integers, DDS interaction is an explicit finite trace of polls each carrying
the return code of `getNextSample`, the sample in the buffer, and the wall
clock the loop would read after that poll.  Fixed-capacity wire arrays are
total functions `Nat → β` updated pointwise, exactly one slot per write the
source performs.  The external spatial-query engine
(`lsst.sims.survey.fields`) is out of scope for the package and is modelled
as an abstract record of query constructors plus a query evaluator.
-/

/-- Python strings, modelled as their character sequences. -/
abbrev Str := List Char

/-- A Lean string literal viewed in the `Str` model. -/
def str (s : String) : Str := s.data

/-- Python `s.split(sep)` for a one-character separator: splits at every
occurrence of `sep`, keeping empty tokens, and `"".split(sep) == [""]`. -/
def pySplit (sep : Char) : Str → List Str
  | [] => [[]]
  | c :: cs =>
    if c = sep then [] :: pySplit sep cs
    else
      match pySplit sep cs with
      | t :: ts => (c :: t) :: ts
      | [] => [[c]]

/-- Python `sep.join(xs)` for a one-character separator. -/
def pyJoin (sep : Char) : List Str → Str
  | [] => []
  | [x] => x
  | x :: y :: xs => x ++ sep :: pyJoin sep (y :: xs)

/-- Pointwise update of a wire array modelled as a total function:
`upd f i b` is the array `f` with slot `i` overwritten by `b`. -/
def upd {β : Type} (f : Nat → β) (i : Nat) (b : β) : Nat → β :=
  fun j => if j = i then b else f j

theorem upd_same {β : Type} (f : Nat → β) (i : Nat) (b : β) : upd f i b i = b := by
  simp [upd]

theorem upd_ne {β : Type} (f : Nat → β) (i : Nat) (b : β) {j : Nat} (h : j ≠ i) :
    upd f i b j = f j := by
  simp [upd, h]

/-- A separator-free string splits to itself alone. -/
theorem pySplit_no_sep {sep : Char} : ∀ {x : Str}, sep ∉ x → pySplit sep x = [x] := by
  intro x
  induction x with
  | nil => intro _; rfl
  | cons c cs ih =>
    intro h
    have hc : ¬ c = sep := fun hc => h (hc ▸ List.mem_cons_self c cs)
    have hcs : sep ∉ cs := fun hm => h (List.mem_cons_of_mem c hm)
    simp only [pySplit, if_neg hc, ih hcs]

theorem pySplit_append_cons (sep : Char) (r : Str) :
    ∀ {x : Str}, sep ∉ x → pySplit sep (x ++ sep :: r) = x :: pySplit sep r := by
  intro x
  induction x with
  | nil => intro _; simp [pySplit]
  | cons c cs ih =>
    intro h
    have hc : ¬ c = sep := fun hc => h (hc ▸ List.mem_cons_self c cs)
    have hcs : sep ∉ cs := fun hm => h (List.mem_cons_of_mem c hm)
    simp only [List.cons_append, pySplit, if_neg hc, List.append_eq, ih hcs]

/-- Splitting undoes joining for a nonempty token list whose tokens avoid the
separator (Python: `sep.join(ns).split(sep) == ns`). -/
theorem pySplit_pyJoin {sep : Char} :
    ∀ {ns : List Str}, ns ≠ [] → (∀ n ∈ ns, sep ∉ n) →
      pySplit sep (pyJoin sep ns) = ns := by
  intro ns
  induction ns with
  | nil => intro h; exact absurd rfl h
  | cons x xs ih =>
    intro _ hn
    cases xs with
    | nil => exact pySplit_no_sep (hn x (List.mem_cons_self x []))
    | cons y ys =>
      have hx : sep ∉ x := hn x (List.mem_cons_self x (y :: ys))
      have hrest : ∀ n ∈ y :: ys, sep ∉ n := fun n hm => hn n (List.mem_cons_of_mem x hm)
      simp only [pyJoin, pySplit_append_cons sep _ hx, ih (by simp) hrest]

/-! ## The acquisition primitive (`conf_comm.py`, `_configure_*` loops) -/

/-- One DDS poll: the return code `getNextSample_*` produced, the sample the
buffer holds afterwards, and the wall clock `time.time()` would report right
after the poll. -/
structure Poll (α : Type) where
  rcode : Int
  sample : α
  time : ℚ
deriving DecidableEq

/-- Outcome of running the acquisition loop over a finite poll trace:
either a sample was accepted, or `SchedulerTimeoutError` was raised, or the
trace ran out while the loop was still waiting. -/
inductive AcqResult (α : Type) where
  | received : α → AcqResult α
  | timedOut : AcqResult α
  | pending : AcqResult α
deriving DecidableEq

/-- A poll the loop accepts: return code `0` and the topic's validity
predicate true on the sample. -/
def goodPoll {α : Type} (valid : α → Bool) (p : Poll α) : Prop :=
  p.rcode = 0 ∧ valid p.sample = true

instance {α : Type} (valid : α → Bool) (p : Poll α) : Decidable (goodPoll valid p) := by
  unfold goodPoll; infer_instance

/-- The acquisition loop shared by every `_configure_*` method of
`ConfigurationCommunicator` (`conf_comm.py` lines 59–69 and its ten clones):
poll; if the return code is `0` and the topic predicate holds, stop with the
sample; otherwise read the clock and raise `SchedulerTimeoutError` once more
than `timeout` seconds have passed since `t0` (the `lasttime` stamp taken
before the loop); else poll again.  A finite trace that runs out of polls
leaves the loop still waiting (`pending`). -/
def acquire {α : Type} (valid : α → Bool) (timeout t0 : ℚ) : List (Poll α) → AcqResult α
  | [] => .pending
  | p :: ps =>
    if goodPoll valid p then .received p.sample
    else if p.time - t0 > timeout then .timedOut
    else acquire valid timeout t0 ps

/-! ### Per-topic samples and validity predicates (`conf_comm.py`)

Each sample structure carries the fields of the corresponding SAL topic that
`ConfigurationCommunicator` reads; for topics whose copy step no claim
touches, only the fields of the validity check are modelled. -/

/-- `schedulerConfig` topic sample. -/
structure SchedulerSample where
  surveyDuration : ℚ
deriving DecidableEq

/-- Validity check of `_configure_scheduler`: `surveyDuration != 0`. -/
def schedulerValid (s : SchedulerSample) : Bool := decide (s.surveyDuration ≠ 0)

/-- `driverConfig` topic sample. -/
structure DriverSample where
  timecostTimeMax : ℚ
deriving DecidableEq

/-- Validity check of `_configure_scheduler_driver`: `timecostTimeMax > 0`. -/
def driverValid (s : DriverSample) : Bool := decide (s.timecostTimeMax > 0)

/-- `obsSiteConfig` topic sample. -/
structure ObsSiteSample where
  name : Str
deriving DecidableEq

/-- Validity check of `_configure_observing_site`: `name != ""`. -/
def obsSiteValid (s : ObsSiteSample) : Bool := decide (s.name ≠ [])

/-- `telescopeConfig` topic sample. -/
structure TelescopeSample where
  altitudeMinpos : ℚ
deriving DecidableEq

/-- Validity check of `_configure_telescope`: `altitudeMinpos >= 0`. -/
def telescopeValid (s : TelescopeSample) : Bool := decide (s.altitudeMinpos ≥ 0)

/-- `domeConfig` topic sample. -/
structure DomeSample where
  altitudeMaxspeed : ℚ
deriving DecidableEq

/-- Validity check of `_configure_dome`: `altitudeMaxspeed >= 0`. -/
def domeValid (s : DomeSample) : Bool := decide (s.altitudeMaxspeed ≥ 0)

/-- `rotatorConfig` topic sample. -/
structure RotatorSample where
  maxspeed : ℚ
deriving DecidableEq

/-- Validity check of `_configure_rotator`: `maxspeed >= 0`. -/
def rotatorValid (s : RotatorSample) : Bool := decide (s.maxspeed ≥ 0)

/-- `cameraConfig` topic sample (all fields `_configure_camera` copies). -/
structure CameraSample where
  readoutTime : ℚ
  shutterTime : ℚ
  filterMountTime : ℚ
  filterChangeTime : ℚ
  filterMaxChangesBurstNum : Int
  filterMaxChangesBurstTime : ℚ
  filterMaxChangesAvgNum : ℚ
  filterMaxChangesAvgTime : ℚ
  filterMounted : Str
  filterPos : Str
  filterRemovable : Str
  filterUnmounted : Str
deriving DecidableEq

/-- Validity check of `_configure_camera`: `readoutTime > 0`. -/
def cameraValid (s : CameraSample) : Bool := decide (s.readoutTime > 0)

/-- `slewConfig` topic sample (all fifteen prerequisite strings). -/
structure SlewSample where
  prereqDomaz : Str
  prereqTelalt : Str
  prereqTelaz : Str
  prereqTelOpticsOpenLoop : Str
  prereqTelOpticsClosedLoop : Str
  prereqTelRot : Str
  prereqFilter : Str
  prereqAdc : Str
  prereqInsOptics : Str
  prereqGuiderPos : Str
  prereqGuiderAdq : Str
  prereqTelSettle : Str
  prereqDomazSettle : Str
  prereqExposures : Str
  prereqReadout : Str
deriving DecidableEq

/-- Validity check of `_configure_slew`: `prereqExposures != ""`. -/
def slewValid (s : SlewSample) : Bool := decide (s.prereqExposures ≠ [])

/-- `opticsLoopCorrConfig` topic sample. -/
structure OpticsLoopCorrSample where
  telOpticsOlSlope : ℚ
deriving DecidableEq

/-- Validity check of `_configure_optics_loop_corr`: `telOpticsOlSlope > 0`. -/
def opticsLoopCorrValid (s : OpticsLoopCorrSample) : Bool :=
  decide (s.telOpticsOlSlope > 0)

/-- `parkConfig` topic sample. -/
structure ParkSample where
  telescopeAltitude : ℚ
deriving DecidableEq

/-- Validity check of `_configure_park`: `telescopeAltitude > 0`. -/
def parkValid (s : ParkSample) : Bool := decide (s.telescopeAltitude > 0)

/-- `surveyTopology` topic sample. -/
structure SurveyTopologySample where
  numGeneralProps : Int
  numSequenceProps : Int
  numSeqProps : Int
  generalPropos : Str
  sequencePropos : Str
deriving DecidableEq

/-- Validity check of `_configure_proposals`:
`numGeneralProps > 0 or numSequenceProps > 0`. -/
def surveyTopologyValid (s : SurveyTopologySample) : Bool :=
  decide (s.numGeneralProps > 0 ∨ s.numSequenceProps > 0)

/-! ### The eleven-topic `configure()` sequence -/

/-- The eleven configuration topics, one per `_configure_*` method. -/
inductive Topic where
  | scheduler
  | driver
  | obsSite
  | telescope
  | dome
  | rotator
  | camera
  | slew
  | opticsLoopCorr
  | park
  | surveyTopology
deriving DecidableEq

/-- The fixed order `configure()` (`conf_comm.py` lines 410–423) runs the
acquisition steps in. -/
def topicOrder : List Topic :=
  [.scheduler, .driver, .obsSite, .telescope, .dome, .rotator, .camera,
   .slew, .opticsLoopCorr, .park, .surveyTopology]

/-- The message of the `SchedulerTimeoutError` each step raises. -/
def timeoutMsg : Topic → String
  | .scheduler => "No configuration received from Scheduler!"
  | .driver => "No configuration received from Scheduler!!"
  | .obsSite => "No configuration received from Scheduler!!"
  | .telescope => "No configuration received from Scheduler!!"
  | .dome => "No configuration received from Scheduler!!"
  | .rotator => "No configuration received from Scheduler!!"
  | .camera => "No configuration received from Scheduler!!"
  | .slew => "No configuration received from Scheduler!!"
  | .opticsLoopCorr => "No configuration received from Scheduler!!"
  | .park => "No configuration received from Scheduler!"
  | .surveyTopology => "No configuration received from Scheduler!"

/-- What the DDS channel offers one topic: the `lasttime` stamp taken when
the step starts, and the finite trace of polls the step would observe. -/
structure TopicFeed (α : Type) where
  t0 : ℚ
  polls : List (Poll α)
deriving DecidableEq

/-- A full environment for one `configure()` run: the timeout attribute
`socs_timeout` (180 s in `__init__`) and one feed per topic. -/
structure Env where
  socs_timeout : ℚ
  scheduler : TopicFeed SchedulerSample
  driver : TopicFeed DriverSample
  obsSite : TopicFeed ObsSiteSample
  telescope : TopicFeed TelescopeSample
  dome : TopicFeed DomeSample
  rotator : TopicFeed RotatorSample
  camera : TopicFeed CameraSample
  slew : TopicFeed SlewSample
  opticsLoopCorr : TopicFeed OpticsLoopCorrSample
  park : TopicFeed ParkSample
  surveyTopology : TopicFeed SurveyTopologySample

/-- The shape of an acquisition outcome, with the sample erased. -/
inductive AcqKind where
  | received
  | timedOut
  | pending
deriving DecidableEq

/-- Erase the sample from an acquisition outcome. -/
def kindOf {α : Type} : AcqResult α → AcqKind
  | .received _ => .received
  | .timedOut => .timedOut
  | .pending => .pending

/-- Outcome shape of one `_configure_*` step run against an environment. -/
def stepKind (env : Env) : Topic → AcqKind
  | .scheduler =>
    kindOf (acquire schedulerValid env.socs_timeout env.scheduler.t0 env.scheduler.polls)
  | .driver =>
    kindOf (acquire driverValid env.socs_timeout env.driver.t0 env.driver.polls)
  | .obsSite =>
    kindOf (acquire obsSiteValid env.socs_timeout env.obsSite.t0 env.obsSite.polls)
  | .telescope =>
    kindOf (acquire telescopeValid env.socs_timeout env.telescope.t0 env.telescope.polls)
  | .dome =>
    kindOf (acquire domeValid env.socs_timeout env.dome.t0 env.dome.polls)
  | .rotator =>
    kindOf (acquire rotatorValid env.socs_timeout env.rotator.t0 env.rotator.polls)
  | .camera =>
    kindOf (acquire cameraValid env.socs_timeout env.camera.t0 env.camera.polls)
  | .slew =>
    kindOf (acquire slewValid env.socs_timeout env.slew.t0 env.slew.polls)
  | .opticsLoopCorr =>
    kindOf (acquire opticsLoopCorrValid env.socs_timeout env.opticsLoopCorr.t0
      env.opticsLoopCorr.polls)
  | .park =>
    kindOf (acquire parkValid env.socs_timeout env.park.t0 env.park.polls)
  | .surveyTopology =>
    kindOf (acquire surveyTopologyValid env.socs_timeout env.surveyTopology.t0
      env.surveyTopology.polls)

/-- How a `configure()` run ends: all eleven steps succeeded, a
`SchedulerTimeoutError` with the given message propagated from the given
step, or a step was still blocked waiting when its trace ran out. -/
inductive ConfOutcome where
  | completed
  | raised (t : Topic) (msg : String)
  | blocked (t : Topic)
deriving DecidableEq

/-- Run the steps of `configure()` in order, recording which topics were
subscribed/polled.  A step that raises aborts the remainder, and the error
propagates unmodified (the caller installs no handler). -/
def configureFrom (env : Env) : List Topic → List Topic × ConfOutcome
  | [] => ([], .completed)
  | t :: ts =>
    match stepKind env t with
    | .received =>
      let r := configureFrom env ts
      (t :: r.1, r.2)
    | .timedOut => ([t], .raised t (timeoutMsg t))
    | .pending => ([t], .blocked t)

/-- `ConfigurationCommunicator.configure` (`conf_comm.py` lines 410–423). -/
def configure (env : Env) : List Topic × ConfOutcome :=
  configureFrom env topicOrder

/-! ### Camera and slew section copies (`conf_comm.py` lines 261–272, 296–325) -/

/-- The camera section of the configuration tree filled by
`_configure_camera`. -/
structure CameraSection where
  readout_time : ℚ
  shutter_time : ℚ
  filter_mount_time : ℚ
  filter_change_time : ℚ
  filter_max_changes_burst_num : Int
  filter_max_changes_burst_time : ℚ
  filter_max_changes_avg_num : ℚ
  filter_max_changes_avg_time : ℚ
  filter_mounted : List Str
  filter_pos : Str
  filter_removable : List Str
  filter_unmounted : List Str
deriving DecidableEq

/-- Field copy of `_configure_camera` (`conf_comm.py` lines 261–272): the
three filter-list strings are decoded with a plain `split(',')`. -/
def cameraSectionOf (s : CameraSample) : CameraSection :=
  { readout_time := s.readoutTime
    shutter_time := s.shutterTime
    filter_mount_time := s.filterMountTime
    filter_change_time := s.filterChangeTime
    filter_max_changes_burst_num := s.filterMaxChangesBurstNum
    filter_max_changes_burst_time := s.filterMaxChangesBurstTime
    filter_max_changes_avg_num := s.filterMaxChangesAvgNum
    filter_max_changes_avg_time := s.filterMaxChangesAvgTime
    filter_mounted := pySplit ',' s.filterMounted
    filter_pos := s.filterPos
    filter_removable := pySplit ',' s.filterRemovable
    filter_unmounted := pySplit ',' s.filterUnmounted }

/-- The guarded decode used by every slew prerequisite field:
`s.split(',') if len(s) > 0 else []`. -/
def splitIfNonempty (s : Str) : List Str :=
  if s.length > 0 then pySplit ',' s else []

/-- The slew section of the configuration tree filled by `_configure_slew`. -/
structure SlewSection where
  prereq_domaz : List Str
  prereq_telalt : List Str
  prereq_telaz : List Str
  prereq_telopticsopenloop : List Str
  prereq_telopticsclosedloop : List Str
  prereq_telrot : List Str
  prereq_filter : List Str
  prereq_adc : List Str
  prereq_ins_optics : List Str
  prereq_guider_pos : List Str
  prereq_guider_adq : List Str
  prereq_telsettle : List Str
  prereq_domazsettle : List Str
  prereq_exposures : List Str
  prereq_readout : List Str
deriving DecidableEq

/-- Field copy of `_configure_slew` (`conf_comm.py` lines 296–325): every
prerequisite string is decoded with the empty-string guard. -/
def slewSectionOf (s : SlewSample) : SlewSection :=
  { prereq_domaz := splitIfNonempty s.prereqDomaz
    prereq_telalt := splitIfNonempty s.prereqTelalt
    prereq_telaz := splitIfNonempty s.prereqTelaz
    prereq_telopticsopenloop := splitIfNonempty s.prereqTelOpticsOpenLoop
    prereq_telopticsclosedloop := splitIfNonempty s.prereqTelOpticsClosedLoop
    prereq_telrot := splitIfNonempty s.prereqTelRot
    prereq_filter := splitIfNonempty s.prereqFilter
    prereq_adc := splitIfNonempty s.prereqAdc
    prereq_ins_optics := splitIfNonempty s.prereqInsOptics
    prereq_guider_pos := splitIfNonempty s.prereqGuiderPos
    prereq_guider_adq := splitIfNonempty s.prereqGuiderAdq
    prereq_telsettle := splitIfNonempty s.prereqTelSettle
    prereq_domazsettle := splitIfNonempty s.prereqDomazSettle
    prereq_exposures := splitIfNonempty s.prereqExposures
    prereq_readout := splitIfNonempty s.prereqReadout }

/-! ## Claim C1 — the acquisition success/timeout contract -/

/-- C1 (amended). For every topic acquisition step run with DDS
communication enabled, over any finite poll trace: the step returns
successfully iff some poll has return code 0 and satisfies the topic's
validity predicate while every *earlier* poll fails that test and is
observed at most `timeout` seconds after the step began; it raises
`SchedulerTimeoutError` iff some poll fails the test and is observed more
than `timeout` seconds after the step began, with every earlier poll
failing the test within the timeout.  In particular an accepting poll is
honoured even when it arrives after the timeout has elapsed, because the
loop consults the clock only after unsuccessful polls — this is where the
claim's "before the timeout elapses … otherwise raises" reading fails
(see `acquire_after_timeout_cex`).
-/
theorem acquire_received_characterization {α : Type} (valid : α → Bool)
    (timeout t0 : ℚ) (tr : List (Poll α)) :
    ((∃ s, acquire valid timeout t0 tr = .received s) ↔
      ∃ pre q post, tr = pre ++ q :: post ∧ goodPoll valid q ∧
        ∀ p ∈ pre, ¬ goodPoll valid p ∧ p.time - t0 ≤ timeout) ∧
    (acquire valid timeout t0 tr = .timedOut ↔
      ∃ pre q post, tr = pre ++ q :: post ∧ ¬ goodPoll valid q ∧
        q.time - t0 > timeout ∧
        ∀ p ∈ pre, ¬ goodPoll valid p ∧ p.time - t0 ≤ timeout) := by
  induction tr with
  | nil =>
    constructor
    · constructor
      · rintro ⟨s, h⟩
        exact absurd h (by simp [acquire])
      · rintro ⟨pre, q, post, h, -⟩
        exact absurd h (by cases pre <;> simp)
    · constructor
      · intro h
        exact absurd h (by simp [acquire])
      · rintro ⟨pre, q, post, h, -⟩
        exact absurd h (by cases pre <;> simp)
  | cons p ps ih =>
    by_cases hg : goodPoll valid p
    · constructor
      · constructor
        · intro _
          exact ⟨[], p, ps, rfl, hg, by simp⟩
        · intro _
          exact ⟨p.sample, by rw [acquire, if_pos hg]⟩
      · constructor
        · intro h
          rw [acquire, if_pos hg] at h
          exact absurd h (by simp)
        · rintro ⟨pre, q, post, heq, hq, -, hpre⟩
          cases pre with
          | nil =>
            simp only [List.nil_append] at heq
            injection heq with h1 h2
            exact absurd (h1 ▸ hg) hq
          | cons a pre =>
            rw [List.cons_append] at heq
            injection heq with h1 h2
            have ha := hpre a (List.mem_cons_self a pre)
            exact absurd (h1 ▸ hg) ha.1
    · by_cases hl : p.time - t0 > timeout
      · constructor
        · constructor
          · rintro ⟨s, h⟩
            rw [acquire, if_neg hg, if_pos hl] at h
            exact absurd h (by simp)
          · rintro ⟨pre, q, post, heq, hq, hpre⟩
            cases pre with
            | nil =>
              simp only [List.nil_append] at heq
              injection heq with h1 h2
              exact absurd (h1 ▸ hq) hg
            | cons a pre =>
              rw [List.cons_append] at heq
              injection heq with h1 h2
              have ha := hpre a (List.mem_cons_self a pre)
              exact absurd (h1 ▸ ha.2) (not_le.mpr hl)
        · constructor
          · intro _
            exact ⟨[], p, ps, rfl, hg, hl, by simp⟩
          · intro _
            rw [acquire, if_neg hg, if_pos hl]
      · have hstep : acquire valid timeout t0 (p :: ps) = acquire valid timeout t0 ps := by
          rw [acquire, if_neg hg, if_neg hl]
        have hple : p.time - t0 ≤ timeout := not_lt.mp hl
        constructor
        · rw [hstep, ih.1]
          constructor
          · rintro ⟨pre, q, post, heq, hq, hpre⟩
            refine ⟨p :: pre, q, post, by rw [List.cons_append, heq], hq, ?_⟩
            intro x hx
            rcases List.mem_cons.mp hx with hx | hx
            · exact hx ▸ ⟨hg, hple⟩
            · exact hpre x hx
          · rintro ⟨pre, q, post, heq, hq, hpre⟩
            cases pre with
            | nil =>
              simp only [List.nil_append] at heq
              injection heq with h1 h2
              exact absurd (h1 ▸ hq) hg
            | cons a pre =>
              rw [List.cons_append] at heq
              injection heq with h1 h2
              exact ⟨pre, q, post, h2, hq,
                fun x hx => hpre x (List.mem_cons_of_mem a hx)⟩
        · rw [hstep, ih.2]
          constructor
          · rintro ⟨pre, q, post, heq, hq, hql, hpre⟩
            refine ⟨p :: pre, q, post, by rw [List.cons_append, heq], hq, hql, ?_⟩
            intro x hx
            rcases List.mem_cons.mp hx with hx | hx
            · exact hx ▸ ⟨hg, hple⟩
            · exact hpre x hx
          · rintro ⟨pre, q, post, heq, hq, hql, hpre⟩
            cases pre with
            | nil =>
              simp only [List.nil_append] at heq
              injection heq with h1 h2
              exact absurd (h1 ▸ hql) hl
            | cons a pre =>
              rw [List.cons_append] at heq
              injection heq with h1 h2
              exact ⟨pre, q, post, h2, hq, hql,
                fun x hx => hpre x (List.mem_cons_of_mem a hx)⟩

/-- A trace for `_configure_scheduler`: one failed poll at 10 s, then a
valid sample (return code 0, `surveyDuration = 5 ≠ 0`) at 200 s — after
the 180 s timeout has elapsed. -/
def schedLateTrace : List (Poll SchedulerSample) :=
  [⟨1, ⟨0⟩, 10⟩, ⟨0, ⟨5⟩, 200⟩]

/-- C1 counterexample. On `schedLateTrace` the `_configure_scheduler` loop
(timeout 180, step start at 0) *succeeds* — the accepting poll is taken at
200 s — even though no poll satisfies "return code 0 and
`surveyDuration != 0` before the 180 s timeout elapses".  So the claimed
"succeeds iff a valid poll arrives before the timeout; otherwise raises
`SchedulerTimeoutError`" is false on the code: the clock is only checked
after failed polls.
-/
theorem acquire_after_timeout_cex :
    acquire schedulerValid 180 0 schedLateTrace = .received ⟨5⟩ ∧
    ¬ ∃ p ∈ schedLateTrace, goodPoll schedulerValid p ∧ p.time - 0 ≤ 180 := by
  constructor
  · norm_num [acquire, schedLateTrace, goodPoll, schedulerValid]
  · norm_num [schedLateTrace, goodPoll, schedulerValid]

/-! ## Claim C2 — `configure()` short-circuits on the first timeout -/

/-- If every step before position `k` succeeds and the step at position `k`
times out, running the steps in `l` attempts exactly the first `k+1` of
them and ends with that step's error. -/
theorem configureFrom_short_circuit (env : Env) :
    ∀ (l : List Topic) (k : Nat) (hk : k < l.length),
      (∀ j, ∀ hj : j < k, stepKind env (l.get ⟨j, hj.trans hk⟩) = .received) →
      stepKind env (l.get ⟨k, hk⟩) = .timedOut →
      configureFrom env l =
        (l.take (k + 1),
         .raised (l.get ⟨k, hk⟩) (timeoutMsg (l.get ⟨k, hk⟩))) := by
  intro l
  induction l with
  | nil => intro k hk; exact absurd hk (by simp)
  | cons t ts ih =>
    intro k hk hpre hto
    cases k with
    | zero =>
      simp only [List.get] at hto
      simp [configureFrom, hto, List.take]
    | succ k =>
      have ht : stepKind env t = .received := hpre 0 (Nat.succ_pos k)
      have hk' : k < ts.length := Nat.lt_of_succ_lt_succ hk
      have hrec := ih k hk'
        (fun j hj => hpre (j + 1) (Nat.succ_lt_succ hj)) hto
      simp only [configureFrom, ht, hrec, List.take, List.get]

/-- C2. For every run of `configure()`: if the `k`-th topic acquisition (in
the fixed order scheduler, driver, observing site, telescope, dome, rotator,
camera, slew, optics loop correction, park, survey topology) raises
`SchedulerTimeoutError` while every earlier one succeeded, then exactly the
first `k+1` topics are subscribed and polled — topics `k+1..11` are never
attempted — and the same `SchedulerTimeoutError` (with that step's message)
reaches `configure()`'s caller unmodified.
-/
theorem configure_short_circuit (env : Env) (k : Nat) (hk : k < topicOrder.length)
    (hpre : ∀ j, ∀ hj : j < k, stepKind env (topicOrder.get ⟨j, hj.trans hk⟩) = .received)
    (hto : stepKind env (topicOrder.get ⟨k, hk⟩) = .timedOut) :
    configure env =
      (topicOrder.take (k + 1),
       .raised (topicOrder.get ⟨k, hk⟩) (timeoutMsg (topicOrder.get ⟨k, hk⟩))) :=
  configureFrom_short_circuit env topicOrder k hk hpre hto

/-- A concrete environment: the scheduler topic answers with a valid sample
at once, the driver topic's first poll fails at 200 s (past the 180 s
timeout), later topics never answer. -/
def envDriverTimesOut : Env :=
  { socs_timeout := 180
    scheduler := ⟨0, [⟨0, ⟨1⟩, 1⟩]⟩
    driver := ⟨0, [⟨1, ⟨0⟩, 200⟩]⟩
    obsSite := ⟨0, []⟩
    telescope := ⟨0, []⟩
    dome := ⟨0, []⟩
    rotator := ⟨0, []⟩
    camera := ⟨0, []⟩
    slew := ⟨0, []⟩
    opticsLoopCorr := ⟨0, []⟩
    park := ⟨0, []⟩
    surveyTopology := ⟨0, []⟩ }

/-- Witness for C2: in `envDriverTimesOut`, `configure()` attempts exactly
the scheduler and driver topics and propagates the driver step's
`SchedulerTimeoutError` unmodified. -/
theorem configure_short_circuit_witness :
    configure envDriverTimesOut =
      ([Topic.scheduler, Topic.driver],
       .raised Topic.driver "No configuration received from Scheduler!!") := by
  have h0 : stepKind envDriverTimesOut Topic.scheduler = .received := by
    norm_num [stepKind, envDriverTimesOut, acquire, goodPoll, schedulerValid, kindOf]
  have h1 : stepKind envDriverTimesOut Topic.driver = .timedOut := by
    norm_num [stepKind, envDriverTimesOut, acquire, goodPoll, driverValid, kindOf]
  exact configure_short_circuit envDriverTimesOut 1 (by decide)
    (fun j hj => by
      have hj0 : j = 0 := by omega
      subst hj0
      exact h0)
    h1

/-! ## Claim C3 — empty-string decoding of delimiter-separated fields -/

/-- C3 counterexample. A camera sample whose `filterMounted` string is empty
(and which passes the topic's validity check, `readoutTime > 0`) is decoded
by `_configure_camera` with a plain `split(',')`, so the configuration tree
receives `[""]` — the one-element list containing the empty string — not
the empty list the claim promises for every delimiter-separated field.
-/
theorem camera_empty_split_cex :
    (cameraSectionOf ⟨1, 0, 0, 0, 0, 0, 0, 0, [], [], [], []⟩).filter_mounted = [str ""] ∧
    (cameraSectionOf ⟨1, 0, 0, 0, 0, 0, 0, 0, [], [], [], []⟩).filter_mounted ≠ [] := by
  constructor
  · rfl
  · decide

/-- C3 (amended). The empty-list rule holds exactly for the fifteen slew
prerequisite fields, whose decode is guarded by `if len(s) > 0 else []`;
the camera `filterMounted`/`filterRemovable`/`filterUnmounted` fields use a
plain `split(',')` and decode the empty string to `[""]` instead.
-/
theorem slew_guarded_camera_unguarded_decode (ss : SlewSample) (cs : CameraSample) :
    (slewSectionOf { ss with prereqDomaz := [] }).prereq_domaz = [] ∧
    (slewSectionOf { ss with prereqTelalt := [] }).prereq_telalt = [] ∧
    (slewSectionOf { ss with prereqTelaz := [] }).prereq_telaz = [] ∧
    (slewSectionOf { ss with prereqTelOpticsOpenLoop := [] }).prereq_telopticsopenloop = [] ∧
    (slewSectionOf { ss with prereqTelOpticsClosedLoop := [] }).prereq_telopticsclosedloop = [] ∧
    (slewSectionOf { ss with prereqTelRot := [] }).prereq_telrot = [] ∧
    (slewSectionOf { ss with prereqFilter := [] }).prereq_filter = [] ∧
    (slewSectionOf { ss with prereqAdc := [] }).prereq_adc = [] ∧
    (slewSectionOf { ss with prereqInsOptics := [] }).prereq_ins_optics = [] ∧
    (slewSectionOf { ss with prereqGuiderPos := [] }).prereq_guider_pos = [] ∧
    (slewSectionOf { ss with prereqGuiderAdq := [] }).prereq_guider_adq = [] ∧
    (slewSectionOf { ss with prereqTelSettle := [] }).prereq_telsettle = [] ∧
    (slewSectionOf { ss with prereqDomazSettle := [] }).prereq_domazsettle = [] ∧
    (slewSectionOf { ss with prereqExposures := [] }).prereq_exposures = [] ∧
    (slewSectionOf { ss with prereqReadout := [] }).prereq_readout = [] ∧
    (cameraSectionOf { cs with filterMounted := [] }).filter_mounted = [str ""] ∧
    (cameraSectionOf { cs with filterRemovable := [] }).filter_removable = [str ""] ∧
    (cameraSectionOf { cs with filterUnmounted := [] }).filter_unmounted = [str ""] := by
  and_intros <;> rfl

/-! ## Proposal data model (`proposal/general.py`, `proposal/sequence.py`)

`pexConfig` dictionaries are insertion-ordered, so `ConfigDictField` values
are modelled as association lists (key/value pairs in iteration order) and
`ListField` values as plain lists.  Optional (`None`-able) containers are
`Option`s where the source distinguishes `None` from present. -/

/-- One selection of `SkyRegion.selections` / `SkyExclusion.selections`:
`limit_type`, `minimum_limit`, `maximum_limit`, `bounds_limit`. -/
structure Selection where
  limit_type : Str
  minimum_limit : ℚ
  maximum_limit : ℚ
  bounds_limit : ℚ
deriving DecidableEq

/-- The selection Python's `selections[index]` falls back to in this model
when the key is absent (the source would raise `KeyError`; no claim
exercises a missing key). -/
def dfltSelection : Selection := ⟨[], 0, 0, 0⟩

/-- Python dict lookup `selections[index]`. -/
def lookupSel (sels : List (Nat × Selection)) (k : Nat) : Selection :=
  (sels.lookup k).getD dfltSelection

/-- One entry of `SkyRegion.time_ranges`. -/
structure TimeRange where
  start : ℚ
  end_ : ℚ
deriving DecidableEq

/-- The `SkyRegion` configuration: named selections, combiner list, the
optional time-range selection mapping (`None` in the flat representation),
and the time ranges. -/
structure SkyRegion where
  selections : List (Nat × Selection)
  combiners : List Str
  selection_mapping : Option (List (Nat × List Nat))
  time_ranges : List (Nat × TimeRange)
deriving DecidableEq

/-- The `SkyExclusion` configuration. -/
structure SkyExclusion where
  dec_window : ℚ
  selections : List (Nat × Selection)
deriving DecidableEq

/-- The `SkyNightlyBounds` configuration. -/
structure SkyNightlyBounds where
  twilight_boundary : ℚ
  delta_lst : ℚ
deriving DecidableEq

/-- The `SkyConstraints` configuration. -/
structure SkyConstraints where
  max_airmass : ℚ
  max_cloud : ℚ
  min_distance_moon : ℚ
  exclude_planets : Bool
deriving DecidableEq

/-- A `GeneralBandFilter` configuration. -/
structure GeneralBandFilter where
  name : Str
  num_visits : Int
  num_grouped_visits : Int
  max_grouped_visits : Int
  bright_limit : ℚ
  dark_limit : ℚ
  max_seeing : ℚ
  exposures : List ℚ
deriving DecidableEq

/-- The `GeneralScheduling` configuration. -/
structure GeneralScheduling where
  max_num_targets : Int
  accept_serendipity : Bool
  accept_consecutive_visits : Bool
  airmass_bonus : ℚ
  hour_angle_bonus : ℚ
  hour_angle_max : ℚ
  restrict_grouped_visits : Bool
  time_interval : ℚ
  time_window_start : ℚ
  time_window_max : ℚ
  time_window_end : ℚ
  time_weight : ℚ
  field_revisit_limit : Int
deriving DecidableEq

/-- A `General` proposal configuration (`proposal/general.py`). -/
structure General where
  name : Option Str
  sky_region : SkyRegion
  sky_exclusion : SkyExclusion
  sky_nightly_bounds : SkyNightlyBounds
  sky_constraints : SkyConstraints
  filters : List (Str × GeneralBandFilter)
  scheduling : GeneralScheduling
deriving DecidableEq

/-! ### Region normalization (`general.py` lines 35–54) -/

/-- One iteration of the time-range loop of `General.proposal_fields`
(`general.py` lines 42–51), for the group keyed `i` with selection indexes
`indexes`: append the group's selections; append `combiners[i]` when that
index exists (the `IndexError` branch skips it); append `"or"` when
`i < num_selections - 1`. -/
def mappingStep (sels : List (Nat × Selection)) (combiners : List Str) (num : Nat)
    (acc : List Selection × List Str) (entry : Nat × List Nat) :
    List Selection × List Str :=
  let cuts := acc.1 ++ entry.2.map (lookupSel sels)
  let combs := acc.2 ++ (combiners.get? entry.1).toList
  let combs := if entry.1 < num - 1 then combs ++ [str "or"] else combs
  (cuts, combs)

/-- The region-cut/combiner normalization of `General.proposal_fields`
(`general.py` lines 35–54): when `selection_mapping` is `None`, `len(...)`
raises `TypeError` and the flat branch uses the selections' values and the
combiners as given; otherwise the time-range loop runs. -/
def normalizeRegion (r : SkyRegion) : List Selection × List Str :=
  match r.selection_mapping with
  | some m => m.foldl (mappingStep r.selections r.combiners m.length) ([], [])
  | none => (r.selections.map Prod.snd, r.combiners)

/-! ### Query composition (`general.py` lines 56–83)

The spatial-query engine (`lsst.sims.survey.fields`) is an out-of-scope
collaborator; it is abstracted by a query type `Q`, its three query
constructors, and an evaluator returning a set of rows whose first
component is the field ID. -/

/-- The `FieldSelection` collaborator: query constructors. -/
structure FieldSelection (Q : Type) where
  select_region : Str → ℚ → ℚ → Q
  galactic_region : ℚ → ℚ → ℚ → Q
  combine_queries : List Q → List Str → Q

/-- The `FieldsDatabase` collaborator: query evaluation, returning the set
of result rows `(field_id, rest)`. -/
structure FieldsDatabase (Q : Type) where
  get_field_set : Q → Finset (Int × List ℚ)

/-- `set([x[0] for x in fields])`: the field-ID set of a row set. -/
def idsOf (rows : Finset (Int × List ℚ)) : Finset Int :=
  rows.image Prod.fst

/-- The query built for one region cut (`general.py` lines 57–63): a
Galactic-plane cut uses the dedicated galactic query, every other type the
generic range query. -/
def cutQuery {Q : Type} (fs : FieldSelection Q) (cut : Selection) : Q :=
  if cut.limit_type ≠ str "GP" then
    fs.select_region cut.limit_type cut.minimum_limit cut.maximum_limit
  else
    fs.galactic_region cut.maximum_limit cut.minimum_limit cut.bounds_limit

/-- The exclusion query of `General.proposal_fields` (`general.py` lines
66–72): scan the exclusion selections in order; every `"GP"` cut overwrites
the query, any other type leaves it untouched. -/
def General.exclusionQuery {Q : Type} (g : General) (fs : FieldSelection Q) : Option Q :=
  (g.sky_exclusion.selections.map Prod.snd).foldl
    (fun acc cut =>
      if cut.limit_type = str "GP" then
        some (fs.galactic_region cut.maximum_limit cut.minimum_limit cut.bounds_limit)
      else acc)
    none

/-- The candidate field-ID set of `General.proposal_fields` (`general.py`
lines 74–76): combine the per-cut queries with the normalized combiners,
evaluate, and take the IDs. -/
def General.candidateIds {Q : Type} (g : General) (fd : FieldsDatabase Q)
    (fs : FieldSelection Q) : Finset Int :=
  let rc := normalizeRegion g.sky_region
  idsOf (fd.get_field_set (fs.combine_queries (rc.1.map (cutQuery fs)) rc.2))

/-- The subtracted Galactic-plane exclusion ID set (`general.py` lines
77–81); empty when no `"GP"` exclusion is configured. -/
def General.gpExclusionIds {Q : Type} (g : General) (fd : FieldsDatabase Q)
    (fs : FieldSelection Q) : Finset Int :=
  match g.exclusionQuery fs with
  | none => ∅
  | some q => idsOf (fd.get_field_set (fs.combine_queries [q] []))

/-- `General.proposal_fields` (`general.py` lines 21–83): candidate IDs,
minus the GP-exclusion IDs when a GP exclusion exists, returned as
`sorted(list(ids))`. -/
def General.proposal_fields {Q : Type} (g : General) (fd : FieldsDatabase Q)
    (fs : FieldSelection Q) : List Int :=
  let ids := g.candidateIds fd fs
  let ids' :=
    match g.exclusionQuery fs with
    | none => ids
    | some q => ids \ idsOf (fd.get_field_set (fs.combine_queries [q] []))
  ids'.sort (· ≤ ·)

/-! ## Claim C4 — time-range normalization combiners -/

/-- The combiner contribution of the time-range group `entry` (key,
selection indexes) as the code produces it: the explicit combiner at the
group's key index when that index exists, then the inter-group `"or"`
whenever the key is below the number of groups minus one. -/
def groupCombiners (num : Nat) (combiners : List Str) (entry : Nat × List Nat) :
    List Str :=
  (combiners.get? entry.1).toList ++ (if entry.1 < num - 1 then [str "or"] else [])

/-- The combiner list claim C4 describes, written from the claim's words
(for comparison with the code's `normalizeRegion`): for a group
contributing more than one selection an implicit `"or"` is inserted before
the next group *unless* the source supplies an explicit combiner for that
group; a single-selection group gets the supplied combiner and the
inter-group `"or"`. -/
def claimedMappingCombiners (m : List (Nat × List Nat)) (combiners : List Str) :
    List Str :=
  m.flatMap (fun e =>
    let explicit := combiners.get? e.1
    if e.2.length > 1 then
      explicit.toList ++ (if explicit.isNone ∧ e.1 < m.length - 1 then [str "or"] else [])
    else
      explicit.toList ++ (if e.1 < m.length - 1 then [str "or"] else []))

theorem mappingStep_foldl (sels : List (Nat × Selection)) (combiners : List Str)
    (num : Nat) :
    ∀ (m : List (Nat × List Nat)) (acc : List Selection × List Str),
      m.foldl (mappingStep sels combiners num) acc =
        (acc.1 ++ m.flatMap (fun e => e.2.map (lookupSel sels)),
         acc.2 ++ m.flatMap (groupCombiners num combiners)) := by
  intro m
  induction m with
  | nil => intro acc; simp
  | cons e m ih =>
    intro acc
    rw [List.foldl_cons, ih]
    rcases e with ⟨i, idxs⟩
    by_cases h : i < num - 1
    · simp [mappingStep, groupCombiners, h, List.append_assoc]
    · simp [mappingStep, groupCombiners, h, List.append_assoc]

/-- C4 (amended). For a time-range-indexed sky region,
`General.proposal_fields` normalizes the region into: the concatenation, in
time-range order, of each group's indexed selections; and a combiner list
that, for *every* group — regardless of how many selections it contributes
— appends the explicit combiner stored at the group's key index when that
index exists, *and additionally* appends the implicit `"or"` whenever the
group's key is smaller than the number of groups minus one.  (The claim's
"only for groups with more than one selection, and only when no explicit
combiner is supplied" is refuted by `mapping_combiners_cex`.)
-/
theorem normalizeRegion_mapping_eq (sels : List (Nat × Selection))
    (combiners : List Str) (m : List (Nat × List Nat))
    (trs : List (Nat × TimeRange)) :
    normalizeRegion ⟨sels, combiners, some m, trs⟩ =
      (m.flatMap (fun e => e.2.map (lookupSel sels)),
       m.flatMap (groupCombiners m.length combiners)) := by
  simp only [normalizeRegion]
  rw [mappingStep_foldl]
  simp

/-- A time-range-indexed region with two groups: group 0 contributes two
selections and has the explicit combiner `"and"`; group 1 contributes one. -/
def skyRegionTwoGroups : SkyRegion :=
  { selections := [(0, ⟨str "RA", 0, 10, 0⟩), (1, ⟨str "Dec", 0, 5, 0⟩),
                   (2, ⟨str "RA", 20, 30, 0⟩)]
    combiners := [str "and"]
    selection_mapping := some [(0, [0, 1]), (1, [2])]
    time_ranges := [] }

/-- C4 counterexample. On `skyRegionTwoGroups` the code produces the
combiner list `["and", "or"]` — the explicit `"and"` *and* the implicit
inter-group `"or"` — while the claim's rule (group 0 contributes more than
one selection and the source supplies an explicit combiner for it, so no
implicit `"or"` is inserted) yields `["and"]`.
-/
theorem mapping_combiners_cex :
    (normalizeRegion skyRegionTwoGroups).2 = [str "and", str "or"] ∧
    claimedMappingCombiners [(0, [0, 1]), (1, [2])] [str "and"] = [str "and"] ∧
    (normalizeRegion skyRegionTwoGroups).2 ≠
      claimedMappingCombiners [(0, [0, 1]), (1, [2])] [str "and"] := by
  refine ⟨rfl, rfl, ?_⟩
  decide

/-! ## Claim C5 — `General.proposal_fields` as a sorted set difference -/

/-- C5. For every General proposal, `proposal_fields` returns an ascending
(strictly sorted, hence de-duplicated) list whose members are exactly the
candidate IDs of the combined region queries minus the GP-exclusion ID set;
and for a flat sky region with the single selection
`{A: type="RA", min=0, max=10}`, no combiners and no exclusions — provided
the external engine's `combine_queries` is neutral on a single query with
no combiners — the result is exactly the field database's direct
range-query result for `("RA", 0, 10)`, sorted ascending with duplicates
removed.
-/
theorem general_proposal_fields_spec {Q : Type} (fs : FieldSelection Q)
    (fd : FieldsDatabase Q) (g : General) :
    List.Sorted (· < ·) (g.proposal_fields fd fs) ∧
    (∀ x : Int, x ∈ g.proposal_fields fd fs ↔
      x ∈ g.candidateIds fd fs ∧ x ∉ g.gpExclusionIds fd fs) ∧
    (∀ b : ℚ, g.sky_region.selections = [(0, ⟨str "RA", 0, 10, b⟩)] →
      g.sky_region.combiners = [] →
      g.sky_region.selection_mapping = none →
      g.sky_exclusion.selections = [] →
      fs.combine_queries [fs.select_region (str "RA") 0 10] [] =
        fs.select_region (str "RA") 0 10 →
      g.proposal_fields fd fs =
        (idsOf (fd.get_field_set (fs.select_region (str "RA") 0 10))).sort (· ≤ ·)) := by
  refine ⟨?_, ?_, ?_⟩
  · simp only [General.proposal_fields]
    exact Finset.sort_sorted_lt _
  · intro x
    simp only [General.proposal_fields, Finset.mem_sort]
    cases hE : g.exclusionQuery fs with
    | none => simp [General.gpExclusionIds, hE]
    | some q => simp [General.gpExclusionIds, hE, Finset.mem_sdiff]
  · intro b h1 h2 h3 h4 hcomb
    have hE : g.exclusionQuery fs = none := by
      rw [General.exclusionQuery, h4]
      rfl
    have hne : (⟨str "RA", 0, 10, b⟩ : Selection).limit_type ≠ str "GP" := by
      show str "RA" ≠ str "GP"
      decide
    have hcut : cutQuery fs ⟨str "RA", 0, 10, b⟩ = fs.select_region (str "RA") 0 10 := by
      rw [cutQuery, if_pos hne]
    simp only [General.proposal_fields, hE, General.candidateIds, normalizeRegion, h3,
      h1, h2, List.map_cons, List.map_nil, hcut, hcomb]

/-! ## Claim C6 — only GP exclusions subtract -/

theorem foldl_exclusion_none {Q : Type} (fs : FieldSelection Q) :
    ∀ (l : List Selection), (∀ c ∈ l, c.limit_type ≠ str "GP") →
      l.foldl (fun acc cut =>
        if cut.limit_type = str "GP" then
          some (fs.galactic_region cut.maximum_limit cut.minimum_limit cut.bounds_limit)
        else acc) none = none := by
  intro l
  induction l with
  | nil => intro _; rfl
  | cons c l ih =>
    intro h
    rw [List.foldl_cons, if_neg (h c (List.mem_cons_self c l))]
    exact ih (fun x hx => h x (List.mem_cons_of_mem c hx))

/-- C6. In `General.proposal_fields` only exclusion selections of limit
type `"GP"` contribute a subtracted field-ID set: if every exclusion
selection has a non-`"GP"` type, the result equals the result for the same
proposal with no exclusion selections at all.
-/
theorem non_gp_exclusions_no_subtraction {Q : Type} (fs : FieldSelection Q)
    (fd : FieldsDatabase Q) (g : General)
    (h : ∀ e ∈ g.sky_exclusion.selections, e.2.limit_type ≠ str "GP") :
    g.proposal_fields fd fs =
      ({ g with sky_exclusion :=
          { g.sky_exclusion with selections := [] } }).proposal_fields fd fs := by
  have hE : g.exclusionQuery fs = none := by
    rw [General.exclusionQuery]
    refine foldl_exclusion_none fs _ ?_
    intro c hc
    rcases List.mem_map.mp hc with ⟨e, he, rfl⟩
    exact h e he
  have hE2 : ({ g with sky_exclusion :=
      { g.sky_exclusion with selections := [] } } : General).exclusionQuery fs = none := by
    rw [General.exclusionQuery]
    rfl
  simp only [General.proposal_fields, hE, hE2, General.candidateIds]

/-! ### Concrete witnesses for C5 and C6 -/

/-- A concrete query engine for the witnesses: queries are token lists,
`combine_queries` concatenates, and only the `("RA", 0, 10)` range query
returns rows. -/
def fsW : FieldSelection (List Str) :=
  { select_region := fun t _ _ => [t]
    galactic_region := fun _ _ _ => [str "gp"]
    combine_queries := fun qs _ => qs.flatMap id }

/-- A concrete field database for the witnesses. -/
def fdW : FieldsDatabase (List Str) :=
  { get_field_set := fun q =>
      if q = [str "RA"] then {(3, []), (1, []), (7, [])} else ∅ }

/-- A concrete flat General proposal with a single `("RA", 0, 10)`
selection, no combiners and no exclusions. -/
def gW : General :=
  { name := none
    sky_region := ⟨[(0, ⟨str "RA", 0, 10, 0⟩)], [], none, []⟩
    sky_exclusion := ⟨0, []⟩
    sky_nightly_bounds := ⟨0, 0⟩
    sky_constraints := ⟨0, 0, 0, false⟩
    filters := []
    scheduling := ⟨0, false, false, 0, 0, 0, false, 0, 0, 0, 0, 0, 0⟩ }

/-- Witness for C5: on the concrete flat proposal `gW` the result equals
the direct range-query result for `("RA", 0, 10)`, sorted. -/
theorem general_proposal_fields_spec_witness :
    gW.proposal_fields fdW fsW =
      (idsOf (fdW.get_field_set (fsW.select_region (str "RA") 0 10))).sort (· ≤ ·) :=
  (general_proposal_fields_spec fsW fdW gW).2.2 0 rfl rfl rfl rfl rfl

/-- `gW` with one non-GP (`"Dec"`) exclusion selection added. -/
def gWnonGP : General :=
  { gW with sky_exclusion := ⟨0, [(0, ⟨str "Dec", -10, 10, 0⟩)]⟩ }

/-- Witness for C6: the `"Dec"` exclusion produces no subtraction. -/
theorem non_gp_exclusions_no_subtraction_witness :
    gWnonGP.proposal_fields fdW fsW =
      ({ gWnonGP with sky_exclusion :=
          { gWnonGP.sky_exclusion with selections := [] } }).proposal_fields fdW fsW :=
  non_gp_exclusions_no_subtraction fsW fdW gWnonGP (by decide)

/-! ## The General wire record and `General.set_topic` (`general.py` 85–183) -/

/-- The `scheduler_generalPropConfigC` wire record.  Fixed-capacity numeric
arrays are total functions indexed by slot. -/
structure GeneralPropTopic where
  name : Str
  twilightBoundary : ℚ
  deltaLst : ℚ
  decWindow : ℚ
  maxAirmass : ℚ
  maxCloud : ℚ
  minDistanceMoon : ℚ
  excludePlanets : Bool
  numRegionSelections : Nat
  regionMinimums : Nat → ℚ
  regionMaximums : Nat → ℚ
  regionBounds : Nat → ℚ
  regionTypes : Str
  regionCombiners : Str
  numTimeRanges : Nat
  timeRangeStarts : Nat → ℚ
  timeRangeEnds : Nat → ℚ
  numSelectionMappings : Nat → Nat
  selectionMappings : Nat → Nat
  numExclusionSelections : Nat
  exclusionMinimums : Nat → ℚ
  exclusionMaximums : Nat → ℚ
  exclusionBounds : Nat → ℚ
  exclusionTypes : Str
  numFilters : Nat
  filterNames : Str
  numVisits : Nat → Int
  numGroupedVisits : Nat → Int
  maxGroupedVisits : Nat → Int
  brightLimit : Nat → ℚ
  darkLimit : Nat → ℚ
  maxSeeing : Nat → ℚ
  numFilterExposures : Nat → Nat
  exposures : Nat → ℚ
  maxNumTargets : Int
  acceptSerendipity : Bool
  acceptConsecutiveVisits : Bool
  airmassBonus : ℚ
  hourAngleBonus : ℚ
  hourAngleMax : ℚ
  restrictGroupedVisits : Bool
  timeInterval : ℚ
  timeWindowStart : ℚ
  timeWindowMax : ℚ
  timeWindowEnd : ℚ
  timeWeight : ℚ
  fieldRevisitLimit : Int

/-- A zeroed `generalPropConfig` topic instance, as handed to `set_topic`. -/
def blankGeneralTopic : GeneralPropTopic :=
  { name := []
    twilightBoundary := 0, deltaLst := 0, decWindow := 0, maxAirmass := 0
    maxCloud := 0, minDistanceMoon := 0, excludePlanets := false
    numRegionSelections := 0
    regionMinimums := fun _ => 0, regionMaximums := fun _ => 0
    regionBounds := fun _ => 0, regionTypes := [], regionCombiners := []
    numTimeRanges := 0, timeRangeStarts := fun _ => 0, timeRangeEnds := fun _ => 0
    numSelectionMappings := fun _ => 0, selectionMappings := fun _ => 0
    numExclusionSelections := 0
    exclusionMinimums := fun _ => 0, exclusionMaximums := fun _ => 0
    exclusionBounds := fun _ => 0, exclusionTypes := []
    numFilters := 0, filterNames := []
    numVisits := fun _ => 0, numGroupedVisits := fun _ => 0
    maxGroupedVisits := fun _ => 0, brightLimit := fun _ => 0
    darkLimit := fun _ => 0, maxSeeing := fun _ => 0
    numFilterExposures := fun _ => 0, exposures := fun _ => 0
    maxNumTargets := 0, acceptSerendipity := false
    acceptConsecutiveVisits := false, airmassBonus := 0, hourAngleBonus := 0
    hourAngleMax := 0, restrictGroupedVisits := false, timeInterval := 0
    timeWindowStart := 0, timeWindowMax := 0, timeWindowEnd := 0
    timeWeight := 0, fieldRevisitLimit := 0 }

/-- The `for i, v in enumerate(self.sky_region.selections.values())` loop of
`set_topic` (`general.py` lines 113–117), writing one slot per selection. -/
def writeRegionSelections : List Selection → Nat → GeneralPropTopic → GeneralPropTopic
  | [], _, t => t
  | v :: vs, i, t =>
    writeRegionSelections vs (i + 1)
      { t with
          regionMinimums := upd t.regionMinimums i v.minimum_limit
          regionMaximums := upd t.regionMaximums i v.maximum_limit
          regionBounds := upd t.regionBounds i v.bounds_limit }

/-- The time-range loop of `set_topic` (`general.py` lines 125–127). -/
def writeTimeRanges : List TimeRange → Nat → GeneralPropTopic → GeneralPropTopic
  | [], _, t => t
  | v :: vs, i, t =>
    writeTimeRanges vs (i + 1)
      { t with
          timeRangeStarts := upd t.timeRangeStarts i v.start
          timeRangeEnds := upd t.timeRangeEnds i v.end_ }

/-- The inner `for index in v.indexes` loop of `set_topic` (`general.py`
lines 135–137), advancing the global `selection_index`. -/
def writeMappingIndexes : List Nat → Nat → GeneralPropTopic → GeneralPropTopic × Nat
  | [], si, t => (t, si)
  | idx :: rest, si, t =>
    writeMappingIndexes rest (si + 1)
      { t with selectionMappings := upd t.selectionMappings si idx }

/-- The selection-mapping loop of `set_topic` (`general.py` lines 132–137). -/
def writeSelectionMappings : List (List Nat) → Nat → Nat → GeneralPropTopic → GeneralPropTopic
  | [], _, _, t => t
  | idxs :: rest, i, si, t =>
    let t1 := { t with numSelectionMappings := upd t.numSelectionMappings i idxs.length }
    let p := writeMappingIndexes idxs si t1
    writeSelectionMappings rest (i + 1) p.2 p.1

/-- The exclusion-selection loop of `set_topic` (`general.py` lines 144–148). -/
def writeExclusionSelections : List Selection → Nat → GeneralPropTopic → GeneralPropTopic
  | [], _, t => t
  | v :: vs, i, t =>
    writeExclusionSelections vs (i + 1)
      { t with
          exclusionMinimums := upd t.exclusionMinimums i v.minimum_limit
          exclusionMaximums := upd t.exclusionMaximums i v.maximum_limit
          exclusionBounds := upd t.exclusionBounds i v.bounds_limit }

/-- The inner `for exposure in v.exposures` loop of `set_topic`
(`general.py` lines 164–166), advancing the global `exp_index`. -/
def writeExposures : List ℚ → Nat → GeneralPropTopic → GeneralPropTopic × Nat
  | [], ei, t => (t, ei)
  | e :: es, ei, t =>
    writeExposures es (ei + 1) { t with exposures := upd t.exposures ei e }

/-- The filter loop of `set_topic` (`general.py` lines 155–166): per-slot
numeric fields at the enumeration index, exposures flattened at the running
global index. -/
def writeGeneralFilters : List GeneralBandFilter → Nat → Nat → GeneralPropTopic → GeneralPropTopic
  | [], _, _, t => t
  | v :: vs, i, ei, t =>
    let t1 := { t with
      numVisits := upd t.numVisits i v.num_visits
      numGroupedVisits := upd t.numGroupedVisits i v.num_grouped_visits
      maxGroupedVisits := upd t.maxGroupedVisits i v.max_grouped_visits
      brightLimit := upd t.brightLimit i v.bright_limit
      darkLimit := upd t.darkLimit i v.dark_limit
      maxSeeing := upd t.maxSeeing i v.max_seeing
      numFilterExposures := upd t.numFilterExposures i v.exposures.length }
    let p := writeExposures v.exposures ei t1
    writeGeneralFilters vs (i + 1) p.2 p.1

/-- `set_topic` lines 98–106: name (with the `None → "None"` fallback) and
the scalar bounds/constraints fields. -/
def generalHeaderBlock (g : General) (t : GeneralPropTopic) : GeneralPropTopic :=
  { t with
      name := g.name.getD (str "None")
      twilightBoundary := g.sky_nightly_bounds.twilight_boundary
      deltaLst := g.sky_nightly_bounds.delta_lst
      decWindow := g.sky_exclusion.dec_window
      maxAirmass := g.sky_constraints.max_airmass
      maxCloud := g.sky_constraints.max_cloud
      minDistanceMoon := g.sky_constraints.min_distance_moon
      excludePlanets := g.sky_constraints.exclude_planets }

/-- `set_topic` lines 108–120: region-selection count, per-slot writes,
joined types (only when the count is nonzero), and the unconditional
joined combiners. -/
def generalRegionBlock (g : General) (t : GeneralPropTopic) : GeneralPropTopic :=
  let sels := g.sky_region.selections.map Prod.snd
  let t := { t with numRegionSelections := sels.length }
  let t :=
    if sels.length ≠ 0 then
      { writeRegionSelections sels 0 t with
          regionTypes := pyJoin ',' (sels.map (fun v => v.limit_type)) }
    else t
  { t with regionCombiners := pyJoin ',' g.sky_region.combiners }

/-- `set_topic` lines 122–127: time-range count and per-slot writes. -/
def generalTimeRangeBlock (g : General) (t : GeneralPropTopic) : GeneralPropTopic :=
  let trs := g.sky_region.time_ranges.map Prod.snd
  let t := { t with numTimeRanges := trs.length }
  if trs.length ≠ 0 then writeTimeRanges trs 0 t else t

/-- `set_topic` lines 129–137: selection-mapping per-slot counts and the
flattened index array (`None` and the empty mapping both skip the loop). -/
def generalMappingBlock (g : General) (t : GeneralPropTopic) : GeneralPropTopic :=
  let maps := (g.sky_region.selection_mapping.getD []).map Prod.snd
  if maps.length ≠ 0 then writeSelectionMappings maps 0 0 t else t

/-- `set_topic` lines 139–149: exclusion-selection count, per-slot writes
and joined types. -/
def generalExclusionBlock (g : General) (t : GeneralPropTopic) : GeneralPropTopic :=
  let esels := g.sky_exclusion.selections.map Prod.snd
  let t := { t with numExclusionSelections := esels.length }
  if esels.length ≠ 0 then
    { writeExclusionSelections esels 0 t with
        exclusionTypes := pyJoin ',' (esels.map (fun v => v.limit_type)) }
  else t

/-- `set_topic` lines 151–167: filter count, per-slot numeric writes, the
flattened exposures array, and the joined filter names. -/
def generalFiltersBlock (g : General) (t : GeneralPropTopic) : GeneralPropTopic :=
  let fvs := g.filters.map Prod.snd
  let t := { t with numFilters := fvs.length }
  if fvs.length ≠ 0 then
    { writeGeneralFilters fvs 0 0 t with
        filterNames := pyJoin ',' (fvs.map (fun v => v.name)) }
  else t

/-- `set_topic` lines 169–181: the scheduling scalars. -/
def generalSchedulingBlock (g : General) (t : GeneralPropTopic) : GeneralPropTopic :=
  { t with
      maxNumTargets := g.scheduling.max_num_targets
      acceptSerendipity := g.scheduling.accept_serendipity
      acceptConsecutiveVisits := g.scheduling.accept_consecutive_visits
      airmassBonus := g.scheduling.airmass_bonus
      hourAngleBonus := g.scheduling.hour_angle_bonus
      hourAngleMax := g.scheduling.hour_angle_max
      restrictGroupedVisits := g.scheduling.restrict_grouped_visits
      timeInterval := g.scheduling.time_interval
      timeWindowStart := g.scheduling.time_window_start
      timeWindowMax := g.scheduling.time_window_max
      timeWindowEnd := g.scheduling.time_window_end
      timeWeight := g.scheduling.time_weight
      fieldRevisitLimit := g.scheduling.field_revisit_limit }

/-- `General.set_topic` (`general.py` lines 85–183), as the source's
top-to-bottom sequence of field-write blocks. -/
def General.set_topic (g : General) (topic : GeneralPropTopic) : GeneralPropTopic :=
  generalSchedulingBlock g
    (generalFiltersBlock g
      (generalExclusionBlock g
        (generalMappingBlock g
          (generalTimeRangeBlock g
            (generalRegionBlock g
              (generalHeaderBlock g topic))))))

/-! ## Claim C7 — General filter encoding round trip -/

/-- The numeric wire-array slot `i` of a General topic: one entry per
filter field written by the filter loop. -/
def filterSlot (t : GeneralPropTopic) (i : Nat) :
    Int × Int × Int × ℚ × ℚ × ℚ × Nat :=
  (t.numVisits i, t.numGroupedVisits i, t.maxGroupedVisits i, t.brightLimit i,
   t.darkLimit i, t.maxSeeing i, t.numFilterExposures i)

/-- The values the filter loop writes for one `GeneralBandFilter`. -/
def bandFilterSlot (v : GeneralBandFilter) :
    Int × Int × Int × ℚ × ℚ × ℚ × Nat :=
  (v.num_visits, v.num_grouped_visits, v.max_grouped_visits, v.bright_limit,
   v.dark_limit, v.max_seeing, v.exposures.length)

/-- The projections of a General topic no filter-loop write may change. -/
def gFrame (t : GeneralPropTopic) : Nat × Str × Nat :=
  (t.numFilters, t.filterNames, t.numRegionSelections)

theorem writeExposures_filterSlot :
    ∀ (es : List ℚ) (ei : Nat) (t : GeneralPropTopic) (j : Nat),
      filterSlot (writeExposures es ei t).1 j = filterSlot t j := by
  intro es
  induction es with
  | nil => intro ei t j; rfl
  | cons e es ih => intro ei t j; rw [writeExposures, ih]; rfl

theorem writeExposures_gFrame :
    ∀ (es : List ℚ) (ei : Nat) (t : GeneralPropTopic),
      gFrame (writeExposures es ei t).1 = gFrame t := by
  intro es
  induction es with
  | nil => intro ei t; rfl
  | cons e es ih => intro ei t; rw [writeExposures, ih]; rfl

theorem writeGeneralFilters_gFrame :
    ∀ (vs : List GeneralBandFilter) (i0 ei : Nat) (t : GeneralPropTopic),
      gFrame (writeGeneralFilters vs i0 ei t) = gFrame t := by
  intro vs
  induction vs with
  | nil => intro i0 ei t; rfl
  | cons v vs ih =>
    intro i0 ei t
    rw [writeGeneralFilters, ih, writeExposures_gFrame]
    rfl

theorem writeGeneralFilters_slot_lt :
    ∀ (vs : List GeneralBandFilter) (i0 ei : Nat) (t : GeneralPropTopic) (j : Nat),
      j < i0 → filterSlot (writeGeneralFilters vs i0 ei t) j = filterSlot t j := by
  intro vs
  induction vs with
  | nil => intro i0 ei t j _; rfl
  | cons v vs ih =>
    intro i0 ei t j hj
    rw [writeGeneralFilters, ih _ _ _ _ (Nat.lt_succ_of_lt hj),
      writeExposures_filterSlot]
    have hne : j ≠ i0 := Nat.ne_of_lt hj
    simp [filterSlot, upd, hne]

theorem writeGeneralFilters_slot_get :
    ∀ (vs : List GeneralBandFilter) (i0 ei : Nat) (t : GeneralPropTopic)
      (k : Nat) (hk : k < vs.length),
      filterSlot (writeGeneralFilters vs i0 ei t) (i0 + k) =
        bandFilterSlot (vs.get ⟨k, hk⟩) := by
  intro vs
  induction vs with
  | nil => intro i0 ei t k hk; exact absurd hk (by simp)
  | cons v vs ih =>
    intro i0 ei t k hk
    cases k with
    | zero =>
      simp only [Nat.add_zero]
      rw [writeGeneralFilters, writeGeneralFilters_slot_lt _ _ _ _ _ (Nat.lt_succ_self i0),
        writeExposures_filterSlot]
      simp [filterSlot, bandFilterSlot, upd, List.get]
    | succ k =>
      have harith : i0 + (k + 1) = (i0 + 1) + k := by omega
      rw [harith, writeGeneralFilters]
      exact ih (i0 + 1) _ _ k (Nat.lt_of_succ_lt_succ hk)

theorem writeRegionSelections_nrs :
    ∀ (vs : List Selection) (i : Nat) (t : GeneralPropTopic),
      (writeRegionSelections vs i t).numRegionSelections = t.numRegionSelections := by
  intro vs
  induction vs with
  | nil => intro i t; rfl
  | cons v vs ih => intro i t; rw [writeRegionSelections, ih]

theorem writeTimeRanges_nrs :
    ∀ (vs : List TimeRange) (i : Nat) (t : GeneralPropTopic),
      (writeTimeRanges vs i t).numRegionSelections = t.numRegionSelections ∧
      (writeTimeRanges vs i t).numFilters = t.numFilters := by
  intro vs
  induction vs with
  | nil => intro i t; exact ⟨rfl, rfl⟩
  | cons v vs ih => intro i t; rw [writeTimeRanges]; exact ih _ _

theorem writeMappingIndexes_nrs :
    ∀ (xs : List Nat) (si : Nat) (t : GeneralPropTopic),
      ((writeMappingIndexes xs si t).1).numRegionSelections = t.numRegionSelections ∧
      ((writeMappingIndexes xs si t).1).numFilters = t.numFilters := by
  intro xs
  induction xs with
  | nil => intro si t; exact ⟨rfl, rfl⟩
  | cons x xs ih => intro si t; rw [writeMappingIndexes]; exact ih _ _

theorem writeSelectionMappings_nrs :
    ∀ (ms : List (List Nat)) (i si : Nat) (t : GeneralPropTopic),
      (writeSelectionMappings ms i si t).numRegionSelections = t.numRegionSelections ∧
      (writeSelectionMappings ms i si t).numFilters = t.numFilters := by
  intro ms
  induction ms with
  | nil => intro i si t; exact ⟨rfl, rfl⟩
  | cons m ms ih =>
    intro i si t
    rw [writeSelectionMappings]
    refine ⟨?_, ?_⟩
    · rw [(ih _ _ _).1, (writeMappingIndexes_nrs _ _ _).1]
    · rw [(ih _ _ _).2, (writeMappingIndexes_nrs _ _ _).2]

theorem writeExclusionSelections_nrs :
    ∀ (vs : List Selection) (i : Nat) (t : GeneralPropTopic),
      (writeExclusionSelections vs i t).numRegionSelections = t.numRegionSelections ∧
      (writeExclusionSelections vs i t).numFilters = t.numFilters := by
  intro vs
  induction vs with
  | nil => intro i t; exact ⟨rfl, rfl⟩
  | cons v vs ih => intro i t; rw [writeExclusionSelections]; exact ih _ _

theorem generalRegionBlock_nrs (g : General) (t : GeneralPropTopic) :
    (generalRegionBlock g t).numRegionSelections = g.sky_region.selections.length := by
  simp only [generalRegionBlock]
  split
  · rw [show ∀ (x : GeneralPropTopic) (s : Str),
        ({ x with regionTypes := s } : GeneralPropTopic).numRegionSelections =
          x.numRegionSelections from fun _ _ => rfl]
    rw [writeRegionSelections_nrs]
    simp
  · simp

theorem generalTimeRangeBlock_nrs (g : General) (t : GeneralPropTopic) :
    (generalTimeRangeBlock g t).numRegionSelections = t.numRegionSelections ∧
    (generalTimeRangeBlock g t).numFilters = t.numFilters := by
  simp only [generalTimeRangeBlock]
  split
  · exact writeTimeRanges_nrs _ _ _
  · exact ⟨rfl, rfl⟩

theorem generalMappingBlock_nrs (g : General) (t : GeneralPropTopic) :
    (generalMappingBlock g t).numRegionSelections = t.numRegionSelections ∧
    (generalMappingBlock g t).numFilters = t.numFilters := by
  simp only [generalMappingBlock]
  split
  · exact writeSelectionMappings_nrs _ _ _ _
  · exact ⟨rfl, rfl⟩

theorem generalExclusionBlock_nrs (g : General) (t : GeneralPropTopic) :
    (generalExclusionBlock g t).numRegionSelections = t.numRegionSelections ∧
    (generalExclusionBlock g t).numFilters = t.numFilters := by
  simp only [generalExclusionBlock]
  split
  · exact writeExclusionSelections_nrs _ _ _
  · exact ⟨rfl, rfl⟩

theorem generalFiltersBlock_numFilters (g : General) (t : GeneralPropTopic) :
    (generalFiltersBlock g t).numFilters = g.filters.length := by
  simp only [generalFiltersBlock]
  split
  · have h := congrArg Prod.fst (writeGeneralFilters_gFrame (g.filters.map Prod.snd) 0 0
      { t with numFilters := (g.filters.map Prod.snd).length })
    simpa [gFrame] using h
  · simp

theorem generalFiltersBlock_nrs (g : General) (t : GeneralPropTopic) :
    (generalFiltersBlock g t).numRegionSelections = t.numRegionSelections := by
  simp only [generalFiltersBlock]
  split
  · have h := congrArg (fun p => p.2.2) (writeGeneralFilters_gFrame (g.filters.map Prod.snd) 0 0
      { t with numFilters := (g.filters.map Prod.snd).length })
    simpa [gFrame] using h
  · rfl

theorem generalFiltersBlock_filterNames (g : General) (t : GeneralPropTopic)
    (h : g.filters.length ≠ 0) :
    (generalFiltersBlock g t).filterNames =
      pyJoin ',' ((g.filters.map Prod.snd).map (fun v => v.name)) := by
  simp only [generalFiltersBlock]
  rw [if_pos (by simpa using h)]

theorem generalFiltersBlock_slot (g : General) (t : GeneralPropTopic) (i : Nat)
    (hi : i < (g.filters.map Prod.snd).length) :
    filterSlot (generalFiltersBlock g t) i =
      bandFilterSlot ((g.filters.map Prod.snd).get ⟨i, hi⟩) := by
  simp only [generalFiltersBlock]
  rw [if_pos (by omega)]
  have h := writeGeneralFilters_slot_get (g.filters.map Prod.snd) 0 0
    { t with numFilters := (g.filters.map Prod.snd).length } i hi
  rw [Nat.zero_add] at h
  exact h

theorem generalSchedulingBlock_frame (g : General) (t : GeneralPropTopic) :
    (generalSchedulingBlock g t).numFilters = t.numFilters ∧
    (generalSchedulingBlock g t).filterNames = t.filterNames ∧
    (generalSchedulingBlock g t).numRegionSelections = t.numRegionSelections ∧
    ∀ i, filterSlot (generalSchedulingBlock g t) i = filterSlot t i :=
  ⟨rfl, rfl, rfl, fun _ => rfl⟩

theorem get_map_snd {α β : Type} :
    ∀ (l : List (α × β)) (i : Nat) (h1 : i < (l.map Prod.snd).length) (h2 : i < l.length),
      (l.map Prod.snd).get ⟨i, h1⟩ = (l.get ⟨i, h2⟩).2 := by
  intro l
  induction l with
  | nil => intro i h1 h2; exact absurd h2 (by simp)
  | cons x l ih =>
    intro i h1 h2
    cases i with
    | zero => rfl
    | succ i => exact ih i (by simpa using h1) (Nat.lt_of_succ_lt_succ h2)

/-- C7 (amended). For every General proposal with `N > 0` filters and `M`
region selections *whose filter names do not contain the `','` delimiter*:
`set_topic` produces `numFilters = N`, `numRegionSelections = M`, splitting
the joined `filterNames` by `','` yields exactly the `N` filter names in
the mapping's iteration order, and slot `i` of the numeric filter arrays
(`numVisits`, `numGroupedVisits`, `maxGroupedVisits`, `brightLimit`,
`darkLimit`, `maxSeeing`, `numFilterExposures`) holds filter `i`'s values.
(Without the no-delimiter proviso the token count can exceed `N`, see
`filter_names_comma_cex`.)
-/
theorem general_set_topic_filters (g : General) (topic : GeneralPropTopic)
    (hN : 0 < g.filters.length)
    (hnames : ∀ f ∈ g.filters, ',' ∉ f.2.name) :
    (g.set_topic topic).numFilters = g.filters.length ∧
    (g.set_topic topic).numRegionSelections = g.sky_region.selections.length ∧
    pySplit ',' ((g.set_topic topic).filterNames) =
      (g.filters.map Prod.snd).map (fun v => v.name) ∧
    (pySplit ',' ((g.set_topic topic).filterNames)).length = g.filters.length ∧
    (∀ i, ∀ hi : i < g.filters.length,
      filterSlot (g.set_topic topic) i = bandFilterSlot ((g.filters.get ⟨i, hi⟩).2)) := by
  have hnames' : ∀ n ∈ (g.filters.map Prod.snd).map (fun v => v.name), ',' ∉ n := by
    intro n hn
    rcases List.mem_map.mp hn with ⟨v, hv, rfl⟩
    rcases List.mem_map.mp hv with ⟨f, hf, rfl⟩
    exact hnames f hf
  have hne : (g.filters.map Prod.snd).map (fun v => v.name) ≠ [] := by
    have hlen : ((g.filters.map Prod.snd).map (fun v => v.name)).length =
        g.filters.length := by
      simp
    intro hcon
    rw [hcon, List.length_nil] at hlen
    omega
  have hsplit : pySplit ',' ((g.set_topic topic).filterNames) =
      (g.filters.map Prod.snd).map (fun v => v.name) := by
    rw [General.set_topic, (generalSchedulingBlock_frame _ _).2.1,
      generalFiltersBlock_filterNames _ _ (Nat.pos_iff_ne_zero.mp hN)]
    exact pySplit_pyJoin hne hnames'
  refine ⟨?_, ?_, hsplit, ?_, ?_⟩
  · rw [General.set_topic, (generalSchedulingBlock_frame _ _).1,
      generalFiltersBlock_numFilters]
  · rw [General.set_topic, (generalSchedulingBlock_frame _ _).2.2.1,
      generalFiltersBlock_nrs, (generalExclusionBlock_nrs _ _).1,
      (generalMappingBlock_nrs _ _).1, (generalTimeRangeBlock_nrs _ _).1,
      generalRegionBlock_nrs]
  · rw [hsplit]
    simp
  · intro i hi
    have hi' : i < (g.filters.map Prod.snd).length := by simpa using hi
    rw [General.set_topic, (generalSchedulingBlock_frame _ _).2.2.2 i,
      generalFiltersBlock_slot _ _ i hi', get_map_snd _ i hi' hi]

/-- A General proposal with a single filter whose name contains the
delimiter. -/
def gComma : General :=
  { gW with filters := [(str "ab", ⟨str "a,b", 1, 1, 1, 0, 0, 0, []⟩)] }

/-- C7 counterexample. With one filter named `"a,b"` the encoder writes
`numFilters = 1`, but splitting the joined `filterNames` string by `','`
yields 2 tokens — the claimed "exactly N tokens" fails when a filter name
contains the delimiter.
-/
theorem filter_names_comma_cex :
    (gComma.set_topic blankGeneralTopic).numFilters = 1 ∧
    (pySplit ',' ((gComma.set_topic blankGeneralTopic).filterNames)).length = 2 ∧
    (1 : Nat) ≠ 2 := by
  refine ⟨rfl, rfl, by omega⟩

/-- A General proposal with two comma-free filters for the C7 witness. -/
def gTwoFilters : General :=
  { gW with filters :=
      [(str "u", ⟨str "u", 10, 1, 2, 21, 30, 1, [15, 15]⟩),
       (str "g", ⟨str "g", 20, 1, 2, 21, 30, 1, [15]⟩)] }

/-- Witness for C7 on `gTwoFilters`. -/
theorem general_set_topic_filters_witness :
    (gTwoFilters.set_topic blankGeneralTopic).numFilters = 2 ∧
    pySplit ',' ((gTwoFilters.set_topic blankGeneralTopic).filterNames) =
      [str "u", str "g"] ∧
    filterSlot (gTwoFilters.set_topic blankGeneralTopic) 0 = (10, 1, 2, 21, 30, 1, 2) := by
  have h := general_set_topic_filters gTwoFilters blankGeneralTopic (by decide) (by decide)
  exact ⟨h.1, h.2.2.1, h.2.2.2.2 0 (by decide)⟩

/-! ## The Sequence proposal (`proposal/sequence.py`) -/

/-- A `BandFilter` configuration (Sequence variant). -/
structure BandFilter where
  name : Str
  bright_limit : ℚ
  dark_limit : ℚ
  max_seeing : ℚ
  exposures : List ℚ
deriving DecidableEq

/-- A `SubSequence` configuration: name, ordered filter list with one
visit count per filter, event counts and time-window parameters (the class
itself lives outside this package's sources; its fields are those
`Sequence.set_topic` reads). -/
structure SubSequence where
  name : Str
  filters : List Str
  visits_per_filter : List Int
  num_events : Int
  num_max_missed : Int
  time_interval : ℚ
  time_window_start : ℚ
  time_window_max : ℚ
  time_window_end : ℚ
  time_weight : ℚ
deriving DecidableEq

/-- Modelled from the spec: `SubSequence.get_filter_string` — the method is
declared outside this package's sources — returns the sub-sequence's
"joined encoded-filter-string", the delimiter-joined ordered filter list. -/
def SubSequence.get_filter_string (ss : SubSequence) : Str :=
  pyJoin ',' ss.filters

/-- A `MasterSubSequence` configuration: name, nested sub-sequences, event
counts and time-window parameters (fields as read by `Sequence.set_topic`). -/
structure MasterSubSequence where
  name : Str
  sub_sequences : List (Nat × SubSequence)
  num_events : Int
  num_max_missed : Int
  time_interval : ℚ
  time_window_start : ℚ
  time_window_max : ℚ
  time_window_end : ℚ
  time_weight : ℚ
deriving DecidableEq

/-- The `SequenceScheduling` configuration. -/
structure SequenceScheduling where
  max_num_targets : Int
  accept_serendipity : Bool
  accept_consecutive_visits : Bool
  airmass_bonus : ℚ
  hour_angle_bonus : ℚ
  hour_angle_max : ℚ
  restart_lost_sequences : Bool
  restart_complete_sequences : Bool
  max_visits_goal : Int
deriving DecidableEq

/-- A `Sequence` proposal configuration (`proposal/sequence.py`). -/
structure Sequence where
  name : Option Str
  sky_user_regions : List Int
  sky_exclusion : SkyExclusion
  sky_nightly_bounds : SkyNightlyBounds
  sky_constraints : SkyConstraints
  sub_sequences : List (Nat × SubSequence)
  master_sub_sequences : List (Nat × MasterSubSequence)
  filters : List (Str × BandFilter)
  scheduling : SequenceScheduling
deriving DecidableEq

/-- `Sequence.proposal_fields` (`sequence.py` lines 30–37):
`sorted(self.sky_user_regions)`. -/
def Sequence.proposal_fields (s : Sequence) : List Int :=
  List.insertionSort (· ≤ ·) s.sky_user_regions

/-- The `scheduler_sequencePropConfigC` wire record. -/
structure SequencePropTopic where
  name : Str
  twilightBoundary : ℚ
  deltaLst : ℚ
  decWindow : ℚ
  maxAirmass : ℚ
  maxCloud : ℚ
  minDistanceMoon : ℚ
  excludePlanets : Bool
  numUserRegions : Nat
  userRegionIds : Nat → Int
  numSubSequences : Nat
  numSubSequenceFilters : Nat → Nat
  numSubSequenceFilterVisits : Nat → Int
  numSubSequenceEvents : Nat → Int
  numSubSequenceMaxMissed : Nat → Int
  subSequenceTimeIntervals : Nat → ℚ
  subSequenceTimeWindowStarts : Nat → ℚ
  subSequenceTimeWindowMaximums : Nat → ℚ
  subSequenceTimeWindowEnds : Nat → ℚ
  subSequenceTimeWeights : Nat → ℚ
  subSequenceNames : Str
  subSequenceFilters : Str
  numMasterSubSequences : Nat
  numNestedSubSequences : Nat → Nat
  numMasterSubSequenceEvents : Nat → Int
  numMasterSubSequenceMaxMissed : Nat → Int
  masterSubSequenceTimeIntervals : Nat → ℚ
  masterSubSequenceTimeWindowStarts : Nat → ℚ
  masterSubSequenceTimeWindowMaximums : Nat → ℚ
  masterSubSequenceTimeWindowEnds : Nat → ℚ
  masterSubSequenceTimeWeights : Nat → ℚ
  masterSubSequenceNames : Str
  numNestedSubSequenceFilters : Nat → Nat
  num_nested_sub_sequence_filter_visits : Nat → Int
  numNestedSubSequenceEvents : Nat → Int
  numNestedSubSequenceMaxMissed : Nat → Int
  nestedSubSequenceTimeIntervals : Nat → ℚ
  nestedSubSequenceTimeWindowStarts : Nat → ℚ
  nestedSubSequenceTimeWindowMaximums : Nat → ℚ
  nestedSubSequenceTimeWindowEnds : Nat → ℚ
  nestedSubSequenceTimeWeights : Nat → ℚ
  nestedSubSequenceNames : Str
  nestedSubSequenceFilters : Str
  numFilters : Nat
  filterNames : Str
  brightLimit : Nat → ℚ
  darkLimit : Nat → ℚ
  maxSeeing : Nat → ℚ
  numFilterExposures : Nat → Nat
  exposures : Nat → ℚ
  maxNumTargets : Int
  acceptSerendipity : Bool
  acceptConsecutiveVisits : Bool
  airmassBonus : ℚ
  hourAngleBonus : ℚ
  hourAngleMax : ℚ
  restartLostSequences : Bool
  restartCompleteSequences : Bool
  maxVisitsGoal : Int

/-- A zeroed `sequencePropConfig` topic instance. -/
def blankSequenceTopic : SequencePropTopic :=
  { name := []
    twilightBoundary := 0, deltaLst := 0, decWindow := 0, maxAirmass := 0
    maxCloud := 0, minDistanceMoon := 0, excludePlanets := false
    numUserRegions := 0, userRegionIds := fun _ => 0
    numSubSequences := 0, numSubSequenceFilters := fun _ => 0
    numSubSequenceFilterVisits := fun _ => 0
    numSubSequenceEvents := fun _ => 0, numSubSequenceMaxMissed := fun _ => 0
    subSequenceTimeIntervals := fun _ => 0
    subSequenceTimeWindowStarts := fun _ => 0
    subSequenceTimeWindowMaximums := fun _ => 0
    subSequenceTimeWindowEnds := fun _ => 0
    subSequenceTimeWeights := fun _ => 0
    subSequenceNames := [], subSequenceFilters := []
    numMasterSubSequences := 0, numNestedSubSequences := fun _ => 0
    numMasterSubSequenceEvents := fun _ => 0
    numMasterSubSequenceMaxMissed := fun _ => 0
    masterSubSequenceTimeIntervals := fun _ => 0
    masterSubSequenceTimeWindowStarts := fun _ => 0
    masterSubSequenceTimeWindowMaximums := fun _ => 0
    masterSubSequenceTimeWindowEnds := fun _ => 0
    masterSubSequenceTimeWeights := fun _ => 0
    masterSubSequenceNames := []
    numNestedSubSequenceFilters := fun _ => 0
    num_nested_sub_sequence_filter_visits := fun _ => 0
    numNestedSubSequenceEvents := fun _ => 0
    numNestedSubSequenceMaxMissed := fun _ => 0
    nestedSubSequenceTimeIntervals := fun _ => 0
    nestedSubSequenceTimeWindowStarts := fun _ => 0
    nestedSubSequenceTimeWindowMaximums := fun _ => 0
    nestedSubSequenceTimeWindowEnds := fun _ => 0
    nestedSubSequenceTimeWeights := fun _ => 0
    nestedSubSequenceNames := [], nestedSubSequenceFilters := []
    numFilters := 0, filterNames := []
    brightLimit := fun _ => 0, darkLimit := fun _ => 0, maxSeeing := fun _ => 0
    numFilterExposures := fun _ => 0, exposures := fun _ => 0
    maxNumTargets := 0, acceptSerendipity := false
    acceptConsecutiveVisits := false, airmassBonus := 0, hourAngleBonus := 0
    hourAngleMax := 0, restartLostSequences := false
    restartCompleteSequences := false, maxVisitsGoal := 0 }

/-- The `for i, sky_user_region in enumerate(...)` loop of `set_topic`
(`sequence.py` lines 64–65). -/
def writeUserRegions : List Int → Nat → SequencePropTopic → SequencePropTopic
  | [], _, t => t
  | r :: rs, i, t =>
    writeUserRegions rs (i + 1) { t with userRegionIds := upd t.userRegionIds i r }

/-- The inner `for filter_visit in sub_sequence.visits_per_filter` loop
(`sequence.py` lines 77–79), advancing the running `filter_visit_index`. -/
def writeVisits : List Int → Nat → SequencePropTopic → SequencePropTopic × Nat
  | [], fvi, t => (t, fvi)
  | v :: vs, fvi, t =>
    writeVisits vs (fvi + 1)
      { t with numSubSequenceFilterVisits := upd t.numSubSequenceFilterVisits fvi v }

/-- The `for i, sub_sequence in self.sub_sequences.items()` loop
(`sequence.py` lines 73–87): the dictionary *key* `i` indexes the per-slot
arrays, the visit counts flatten at the running `filter_visit_index`. -/
def writeSubSequences : List (Nat × SubSequence) → Nat → SequencePropTopic → SequencePropTopic
  | [], _, t => t
  | (i, ss) :: rest, fvi, t =>
    let t1 := { t with
      numSubSequenceFilters := upd t.numSubSequenceFilters i ss.filters.length }
    let p := writeVisits ss.visits_per_filter fvi t1
    let t2 := { p.1 with
      numSubSequenceEvents := upd p.1.numSubSequenceEvents i ss.num_events
      numSubSequenceMaxMissed := upd p.1.numSubSequenceMaxMissed i ss.num_max_missed
      subSequenceTimeIntervals := upd p.1.subSequenceTimeIntervals i ss.time_interval
      subSequenceTimeWindowStarts := upd p.1.subSequenceTimeWindowStarts i ss.time_window_start
      subSequenceTimeWindowMaximums := upd p.1.subSequenceTimeWindowMaximums i ss.time_window_max
      subSequenceTimeWindowEnds := upd p.1.subSequenceTimeWindowEnds i ss.time_window_end
      subSequenceTimeWeights := upd p.1.subSequenceTimeWeights i ss.time_weight }
    writeSubSequences rest p.2 t2

/-- The inner nested-visit loop (`sequence.py` lines 114–116), writing the
`num_nested_sub_sequence_filter_visits` array at the running index. -/
def writeNestedVisits : List Int → Nat → SequencePropTopic → SequencePropTopic × Nat
  | [], fvi, t => (t, fvi)
  | v :: vs, fvi, t =>
    writeNestedVisits vs (fvi + 1)
      { t with
          num_nested_sub_sequence_filter_visits :=
            upd t.num_nested_sub_sequence_filter_visits fvi v }

/-- The `for sub_sequence in master_sub_sequence.sub_sequences.values()`
loop (`sequence.py` lines 110–124): nested sub-sequences write at the
running global `nss_index`. -/
def writeNestedSubSequences :
    List SubSequence → Nat → Nat → SequencePropTopic → SequencePropTopic × Nat × Nat
  | [], nssi, fvi, t => (t, nssi, fvi)
  | ss :: rest, nssi, fvi, t =>
    let t1 := { t with
      numNestedSubSequenceFilters := upd t.numNestedSubSequenceFilters nssi ss.filters.length }
    let p := writeNestedVisits ss.visits_per_filter fvi t1
    let t2 := { p.1 with
      numNestedSubSequenceEvents := upd p.1.numNestedSubSequenceEvents nssi ss.num_events
      numNestedSubSequenceMaxMissed := upd p.1.numNestedSubSequenceMaxMissed nssi ss.num_max_missed
      nestedSubSequenceTimeIntervals := upd p.1.nestedSubSequenceTimeIntervals nssi ss.time_interval
      nestedSubSequenceTimeWindowStarts := upd p.1.nestedSubSequenceTimeWindowStarts nssi ss.time_window_start
      nestedSubSequenceTimeWindowMaximums := upd p.1.nestedSubSequenceTimeWindowMaximums nssi ss.time_window_max
      nestedSubSequenceTimeWindowEnds := upd p.1.nestedSubSequenceTimeWindowEnds nssi ss.time_window_end
      nestedSubSequenceTimeWeights := upd p.1.nestedSubSequenceTimeWeights nssi ss.time_weight }
    writeNestedSubSequences rest (nssi + 1) p.2 t2

/-- The `for i, master_sub_sequence in self.master_sub_sequences.items()`
loop (`sequence.py` lines 100–124): the dictionary key indexes the master
arrays; `nss_index` and `filter_visit_index` run across all masters. -/
def writeMasterSubSequences :
    List (Nat × MasterSubSequence) → Nat → Nat → SequencePropTopic → SequencePropTopic
  | [], _, _, t => t
  | (i, mss) :: rest, nssi, fvi, t =>
    let t1 := { t with
      numNestedSubSequences := upd t.numNestedSubSequences i mss.sub_sequences.length
      numMasterSubSequenceEvents := upd t.numMasterSubSequenceEvents i mss.num_events
      numMasterSubSequenceMaxMissed := upd t.numMasterSubSequenceMaxMissed i mss.num_max_missed
      masterSubSequenceTimeIntervals := upd t.masterSubSequenceTimeIntervals i mss.time_interval
      masterSubSequenceTimeWindowStarts := upd t.masterSubSequenceTimeWindowStarts i mss.time_window_start
      masterSubSequenceTimeWindowMaximums := upd t.masterSubSequenceTimeWindowMaximums i mss.time_window_max
      masterSubSequenceTimeWindowEnds := upd t.masterSubSequenceTimeWindowEnds i mss.time_window_end
      masterSubSequenceTimeWeights := upd t.masterSubSequenceTimeWeights i mss.time_weight }
    let r := writeNestedSubSequences (mss.sub_sequences.map Prod.snd) nssi fvi t1
    writeMasterSubSequences rest r.2.1 r.2.2 r.1

/-- The inner exposure loop of the Sequence filter block (`sequence.py`
lines 140–142). -/
def writeSeqExposures : List ℚ → Nat → SequencePropTopic → SequencePropTopic × Nat
  | [], ei, t => (t, ei)
  | e :: es, ei, t =>
    writeSeqExposures es (ei + 1) { t with exposures := upd t.exposures ei e }

/-- The filter loop of the Sequence `set_topic` (`sequence.py` lines
134–142). -/
def writeSeqFilters : List BandFilter → Nat → Nat → SequencePropTopic → SequencePropTopic
  | [], _, _, t => t
  | v :: vs, i, ei, t =>
    let t1 := { t with
      brightLimit := upd t.brightLimit i v.bright_limit
      darkLimit := upd t.darkLimit i v.dark_limit
      maxSeeing := upd t.maxSeeing i v.max_seeing
      numFilterExposures := upd t.numFilterExposures i v.exposures.length }
    let p := writeSeqExposures v.exposures ei t1
    writeSeqFilters vs (i + 1) p.2 p.1

/-- `Sequence.set_topic` lines 52–60: name and scalar fields. -/
def seqHeaderBlock (s : Sequence) (t : SequencePropTopic) : SequencePropTopic :=
  { t with
      name := s.name.getD (str "None")
      twilightBoundary := s.sky_nightly_bounds.twilight_boundary
      deltaLst := s.sky_nightly_bounds.delta_lst
      decWindow := s.sky_exclusion.dec_window
      maxAirmass := s.sky_constraints.max_airmass
      maxCloud := s.sky_constraints.max_cloud
      minDistanceMoon := s.sky_constraints.min_distance_moon
      excludePlanets := s.sky_constraints.exclude_planets }

/-- `Sequence.set_topic` lines 62–65: user-region count and ID writes. -/
def seqUserRegionsBlock (s : Sequence) (t : SequencePropTopic) : SequencePropTopic :=
  let t1 := { t with numUserRegions := s.sky_user_regions.length }
  writeUserRegions s.sky_user_regions 0 t1

/-- `Sequence.set_topic` lines 67–89: sub-sequence count, per-slot writes,
and the joined name/filter strings. -/
def seqSubSequencesBlock (s : Sequence) (t : SequencePropTopic) : SequencePropTopic :=
  let t1 := { t with numSubSequences := s.sub_sequences.length }
  if s.sub_sequences.length ≠ 0 then
    { writeSubSequences s.sub_sequences 0 t1 with
        subSequenceNames := pyJoin ',' (s.sub_sequences.map (fun p => p.2.name))
        subSequenceFilters :=
          pyJoin ',' (s.sub_sequences.map (fun p => p.2.get_filter_string)) }
  else t1

/-- `Sequence.set_topic` lines 91–128: master-sub-sequence count, per-slot
writes (master and nested), and the three joined strings. -/
def seqMasterBlock (s : Sequence) (t : SequencePropTopic) : SequencePropTopic :=
  let t1 := { t with numMasterSubSequences := s.master_sub_sequences.length }
  if s.master_sub_sequences.length ≠ 0 then
    { writeMasterSubSequences s.master_sub_sequences 0 0 t1 with
        masterSubSequenceNames :=
          pyJoin ',' (s.master_sub_sequences.map (fun p => p.2.name))
        nestedSubSequenceNames :=
          pyJoin ','
            ((s.master_sub_sequences.flatMap (fun p => p.2.sub_sequences.map Prod.snd)).map
              (fun ss => ss.name))
        nestedSubSequenceFilters :=
          pyJoin ','
            ((s.master_sub_sequences.flatMap (fun p => p.2.sub_sequences.map Prod.snd)).map
              (fun ss => ss.get_filter_string)) }
  else t1

/-- `Sequence.set_topic` lines 130–143: filter count, per-slot writes and
the joined filter names. -/
def seqFiltersBlock (s : Sequence) (t : SequencePropTopic) : SequencePropTopic :=
  let fvs := s.filters.map Prod.snd
  let t1 := { t with numFilters := fvs.length }
  if fvs.length ≠ 0 then
    { writeSeqFilters fvs 0 0 t1 with
        filterNames := pyJoin ',' (fvs.map (fun v => v.name)) }
  else t1

/-- `Sequence.set_topic` lines 145–153: the scheduling scalars. -/
def seqSchedulingBlock (s : Sequence) (t : SequencePropTopic) : SequencePropTopic :=
  { t with
      maxNumTargets := s.scheduling.max_num_targets
      acceptSerendipity := s.scheduling.accept_serendipity
      acceptConsecutiveVisits := s.scheduling.accept_consecutive_visits
      airmassBonus := s.scheduling.airmass_bonus
      hourAngleBonus := s.scheduling.hour_angle_bonus
      hourAngleMax := s.scheduling.hour_angle_max
      restartLostSequences := s.scheduling.restart_lost_sequences
      restartCompleteSequences := s.scheduling.restart_complete_sequences
      maxVisitsGoal := s.scheduling.max_visits_goal }

/-- `Sequence.set_topic` (`sequence.py` lines 39–155), as the source's
top-to-bottom sequence of field-write blocks. -/
def Sequence.set_topic (s : Sequence) (topic : SequencePropTopic) : SequencePropTopic :=
  seqSchedulingBlock s
    (seqFiltersBlock s
      (seqMasterBlock s
        (seqSubSequencesBlock s
          (seqUserRegionsBlock s
            (seqHeaderBlock s topic)))))

/-! ## Claims C8 and C9 — Sequence encoding -/

/-- The top-level sub-sequence output fields of a Sequence topic: counts,
per-slot arrays, flattened visit array and the two joined strings. -/
def seqTopFields (t : SequencePropTopic) :
    Nat × (Nat → Nat) × (Nat → Int) × (Nat → Int) × (Nat → Int) × (Nat → ℚ) ×
      (Nat → ℚ) × (Nat → ℚ) × (Nat → ℚ) × (Nat → ℚ) × Str × Str :=
  (t.numSubSequences, t.numSubSequenceFilters, t.numSubSequenceFilterVisits,
   t.numSubSequenceEvents, t.numSubSequenceMaxMissed, t.subSequenceTimeIntervals,
   t.subSequenceTimeWindowStarts, t.subSequenceTimeWindowMaximums,
   t.subSequenceTimeWindowEnds, t.subSequenceTimeWeights, t.subSequenceNames,
   t.subSequenceFilters)

theorem writeNestedVisits_topFields :
    ∀ (vs : List Int) (fvi : Nat) (t : SequencePropTopic),
      seqTopFields (writeNestedVisits vs fvi t).1 = seqTopFields t := by
  intro vs
  induction vs with
  | nil => intro fvi t; rfl
  | cons v vs ih => intro fvi t; rw [writeNestedVisits, ih]; rfl

theorem writeNestedSubSequences_topFields :
    ∀ (l : List SubSequence) (nssi fvi : Nat) (t : SequencePropTopic),
      seqTopFields (writeNestedSubSequences l nssi fvi t).1 = seqTopFields t := by
  intro l
  induction l with
  | nil => intro nssi fvi t; rfl
  | cons ss l ih =>
    intro nssi fvi t
    rw [writeNestedSubSequences, ih]
    show seqTopFields (writeNestedVisits ss.visits_per_filter fvi
      { t with
          numNestedSubSequenceFilters :=
            upd t.numNestedSubSequenceFilters nssi ss.filters.length }).1 = seqTopFields t
    rw [writeNestedVisits_topFields]
    rfl

theorem writeMasterSubSequences_topFields :
    ∀ (l : List (Nat × MasterSubSequence)) (nssi fvi : Nat) (t : SequencePropTopic),
      seqTopFields (writeMasterSubSequences l nssi fvi t) = seqTopFields t := by
  intro l
  induction l with
  | nil => intro nssi fvi t; rfl
  | cons p l ih =>
    intro nssi fvi t
    rcases p with ⟨i, mss⟩
    rw [writeMasterSubSequences, ih]
    show seqTopFields (writeNestedSubSequences (mss.sub_sequences.map Prod.snd) nssi fvi
      { t with
          numNestedSubSequences := upd t.numNestedSubSequences i mss.sub_sequences.length
          numMasterSubSequenceEvents := upd t.numMasterSubSequenceEvents i mss.num_events
          numMasterSubSequenceMaxMissed := upd t.numMasterSubSequenceMaxMissed i mss.num_max_missed
          masterSubSequenceTimeIntervals := upd t.masterSubSequenceTimeIntervals i mss.time_interval
          masterSubSequenceTimeWindowStarts := upd t.masterSubSequenceTimeWindowStarts i mss.time_window_start
          masterSubSequenceTimeWindowMaximums := upd t.masterSubSequenceTimeWindowMaximums i mss.time_window_max
          masterSubSequenceTimeWindowEnds := upd t.masterSubSequenceTimeWindowEnds i mss.time_window_end
          masterSubSequenceTimeWeights := upd t.masterSubSequenceTimeWeights i mss.time_weight }).1 =
      seqTopFields t
    rw [writeNestedSubSequences_topFields]
    rfl

theorem writeSeqExposures_topFields :
    ∀ (es : List ℚ) (ei : Nat) (t : SequencePropTopic),
      seqTopFields (writeSeqExposures es ei t).1 = seqTopFields t := by
  intro es
  induction es with
  | nil => intro ei t; rfl
  | cons e es ih => intro ei t; rw [writeSeqExposures, ih]; rfl

theorem writeSeqFilters_topFields :
    ∀ (vs : List BandFilter) (i ei : Nat) (t : SequencePropTopic),
      seqTopFields (writeSeqFilters vs i ei t) = seqTopFields t := by
  intro vs
  induction vs with
  | nil => intro i ei t; rfl
  | cons v vs ih =>
    intro i ei t
    rw [writeSeqFilters, ih, writeSeqExposures_topFields]
    rfl

theorem seqMasterBlock_topFields (s : Sequence) (t : SequencePropTopic) :
    seqTopFields (seqMasterBlock s t) = seqTopFields t := by
  simp only [seqMasterBlock]
  split
  · exact writeMasterSubSequences_topFields _ _ _ _
  · rfl

theorem seqFiltersBlock_topFields (s : Sequence) (t : SequencePropTopic) :
    seqTopFields (seqFiltersBlock s t) = seqTopFields t := by
  simp only [seqFiltersBlock]
  split
  · exact writeSeqFilters_topFields _ _ _ _
  · rfl

theorem seqSchedulingBlock_topFields (s : Sequence) (t : SequencePropTopic) :
    seqTopFields (seqSchedulingBlock s t) = seqTopFields t := rfl

/-- The top-level sub-sequence fields of the full encoding are fixed by the
blocks up to and including the sub-sequence block. -/
theorem set_topic_topFields (u : Sequence) (x : SequencePropTopic) :
    seqTopFields (u.set_topic x) =
      seqTopFields (seqSubSequencesBlock u (seqUserRegionsBlock u (seqHeaderBlock u x))) := by
  rw [Sequence.set_topic, seqSchedulingBlock_topFields, seqFiltersBlock_topFields,
    seqMasterBlock_topFields]

/-- C9. Adding master sub-sequences (with their nested sub-sequences)
changes only the master/nested output fields: every top-level sub-sequence
field of the wire record — `numSubSequences`, `numSubSequenceFilters`,
`numSubSequenceFilterVisits`, `numSubSequenceEvents`,
`numSubSequenceMaxMissed`, the five `subSequenceTime*` arrays,
`subSequenceNames` and `subSequenceFilters` — is identical to the encoding
of the same proposal with no master sub-sequences.
-/
theorem master_does_not_perturb_top_level (s : Sequence) (topic : SequencePropTopic) :
    seqTopFields (s.set_topic topic) =
      seqTopFields (({ s with master_sub_sequences := [] } : Sequence).set_topic topic) := by
  rw [set_topic_topFields, set_topic_topFields]
  rfl

/-- C8. For a Sequence proposal whose top-level sub-sequences are exactly
two entries keyed 0 and 1 with filter lists (and matching per-filter visit
lists) of lengths 2 and 3: `numSubSequenceFilters` records `[2, 3]`, and
the flattened `numSubSequenceFilterVisits` array holds sub-sequence 0's
visit counts in slots 0–1 and sub-sequence 1's in slots 2–4.
-/
theorem sequence_set_topic_two_subsequences (s : Sequence) (s0 s1 : SubSequence)
    (topic : SequencePropTopic)
    (hss : s.sub_sequences = [(0, s0), (1, s1)])
    (hf0 : s0.filters.length = 2) (hv0 : s0.visits_per_filter.length = 2)
    (hf1 : s1.filters.length = 3) (hv1 : s1.visits_per_filter.length = 3) :
    (s.set_topic topic).numSubSequenceFilters 0 = 2 ∧
    (s.set_topic topic).numSubSequenceFilters 1 = 3 ∧
    (∀ j, ∀ hj : j < 2, (s.set_topic topic).numSubSequenceFilterVisits j =
      s0.visits_per_filter.get ⟨j, by omega⟩) ∧
    (∀ j, ∀ hj : j < 3, (s.set_topic topic).numSubSequenceFilterVisits (2 + j) =
      s1.visits_per_filter.get ⟨j, by omega⟩) := by
  have htop := set_topic_topFields s topic
  have hF : (s.set_topic topic).numSubSequenceFilters =
      (seqSubSequencesBlock s (seqUserRegionsBlock s (seqHeaderBlock s topic))).numSubSequenceFilters :=
    congrArg (fun p => p.2.1) htop
  have hV : (s.set_topic topic).numSubSequenceFilterVisits =
      (seqSubSequencesBlock s (seqUserRegionsBlock s (seqHeaderBlock s topic))).numSubSequenceFilterVisits :=
    congrArg (fun p => p.2.2.1) htop
  obtain ⟨a, b, hab⟩ := List.length_eq_two.mp hv0
  obtain ⟨c, d, e, hcde⟩ := List.length_eq_three.mp hv1
  refine ⟨?_, ?_, ?_, ?_⟩
  · rw [hF]
    simp only [seqSubSequencesBlock, hss]
    rw [if_pos (by simp)]
    simp [writeSubSequences, hab, hcde, writeVisits, upd, hf0]
  · rw [hF]
    simp only [seqSubSequencesBlock, hss]
    rw [if_pos (by simp)]
    simp [writeSubSequences, hab, hcde, writeVisits, upd, hf1]
  · intro j hj
    rw [hV]
    simp only [seqSubSequencesBlock, hss]
    rw [if_pos (by simp)]
    interval_cases j <;>
      simp [writeSubSequences, hab, hcde, writeVisits, upd, List.get]
  · intro j hj
    rw [hV]
    simp only [seqSubSequencesBlock, hss]
    rw [if_pos (by simp)]
    interval_cases j <;>
      simp [writeSubSequences, hab, hcde, writeVisits, upd, List.get]

/-- A sub-sequence with two filters and two per-filter visit counts. -/
def ssTwo : SubSequence :=
  ⟨str "a", [str "u", str "g"], [5, 6], 1, 0, 0, 0, 0, 0, 0⟩

/-- A sub-sequence with three filters and three per-filter visit counts. -/
def ssThree : SubSequence :=
  ⟨str "b", [str "r", str "i", str "z"], [7, 8, 9], 1, 0, 0, 0, 0, 0, 0⟩

/-- A Sequence proposal with exactly the two sub-sequences `ssTwo`,
`ssThree`. -/
def seqTwoThree : Sequence :=
  { name := none
    sky_user_regions := []
    sky_exclusion := ⟨0, []⟩
    sky_nightly_bounds := ⟨0, 0⟩
    sky_constraints := ⟨0, 0, 0, false⟩
    sub_sequences := [(0, ssTwo), (1, ssThree)]
    master_sub_sequences := []
    filters := []
    scheduling := ⟨0, false, false, 0, 0, 0, false, false, 0⟩ }

/-- Witness for C8 on `seqTwoThree`. -/
theorem sequence_set_topic_two_subsequences_witness :
    (seqTwoThree.set_topic blankSequenceTopic).numSubSequenceFilters 0 = 2 ∧
    (seqTwoThree.set_topic blankSequenceTopic).numSubSequenceFilters 1 = 3 ∧
    (seqTwoThree.set_topic blankSequenceTopic).numSubSequenceFilterVisits 0 = 5 ∧
    (seqTwoThree.set_topic blankSequenceTopic).numSubSequenceFilterVisits 2 = 7 := by
  have h := sequence_set_topic_two_subsequences seqTwoThree ssTwo ssThree
    blankSequenceTopic rfl rfl rfl rfl rfl
  exact ⟨h.1, h.2.1, h.2.2.1 0 (by omega), h.2.2.2 0 (by omega)⟩

/-! ## Claim C10 — `Sequence.proposal_fields` -/

/-- C10. `Sequence.proposal_fields` returns `sky_user_regions` sorted in
ascending order with duplicates preserved: the result is `≤`-sorted and
every field ID occurs exactly as many times as in `sky_user_regions` (no
de-duplication, unlike the General variant's field-ID computation).
-/
theorem sequence_proposal_fields_sorted_count (s : Sequence) :
    List.Sorted (· ≤ ·) s.proposal_fields ∧
    ∀ x : Int, s.proposal_fields.count x = s.sky_user_regions.count x := by
  constructor
  · exact List.sorted_insertionSort _ _
  · intro x
    exact (List.perm_insertionSort _ _).count_eq x
